import Mathlib

/-!
The synchronous HTTP server of `src/main.cpp`.

A shallow embedding of the request reader (`ReadRequest`), the two response
builders (`MakeStringResponse`, `MakeEmptyResponse`), the dispatcher
(`HandleRequest`) and the connection loop (`HandleConnection`).

Conventions.

* A C++ `char` is a `Char`, a `std::string` / `std::string_view` is a list of
  them (`Str`), so `size()` is `List.length` and `substr(1)` drops one `char`.
* The socket is an oracle: the outcome of the n-th `http::read`, of the n-th
  `http::write` and of the `shutdown` are data in a `Socket` value, and
  `HandleConnection` produces the list of effects it performs on it.
* The message type of Boost.Beast (`http::message`, `http::basic_fields`,
  `http::token_list`) is a library, not code of the repository.  Section
  `Beast` models the member functions that `main.cpp` calls after the
  library's algorithms.  The field container is an ordered list of name/value
  pairs with case-insensitive names; `set` trims the value and throws when the
  name or the value is over the size limit of the container, as the library does.
-/

set_option autoImplicit false

namespace SyncServer

/-- A `std::string` or `std::string_view`: a sequence of `char`. -/
abbrev Str := List Char

/-! Exceptions and error codes -/

/-- A `beast::error_code`: the category (by name), the integer value, and the
text `message()` returns for it. -/
structure ErrorCode where
  category : Str
  value : Int
  message : Str
deriving DecidableEq, Repr

/-- The conversion `if (ec)`: an error code is set when its value is not zero. -/
def ErrorCode.failed (ec : ErrorCode) : Bool := ec.value != 0

/-- The name of the category of `http::error`. -/
def http_category : Str := "beast.http".toList

/-- The test `ec == http::error::end_of_stream`; `end_of_stream` is the
enumerator with value 1 of `http::error`. -/
def ErrorCode.is_end_of_stream (ec : ErrorCode) : Bool :=
  ec.category == http_category && ec.value == 1

/-- The C++ exceptions that occur in `main.cpp`.  All but the last derive from
`std::exception`; `foreign` is a thrown value that does not. -/
inductive Exn where
  /-- The exception `std::out_of_range`, thrown by `string_view::substr`. -/
  | out_of_range
  /-- The exception `std::runtime_error` with its `what()` text. -/
  | runtime_error (what : Str)
  /-- The exception `boost::system::system_error`, thrown by `http::write`. -/
  | system_error (ec : ErrorCode)
  /-- The exception `std::length_error`, thrown by `basic_fields::set` for a name
  or a value over the size limit (later versions of the library throw a
  `system_error` there, a `std::exception` as well). -/
  | length_error
  /-- A thrown value whose type does not derive from `std::exception`. -/
  | foreign
deriving DecidableEq, Repr

/-- Whether `catch (const std::exception&)` catches the exception. -/
def Exn.is_std_exception : Exn → Bool
  | .foreign => false
  | _ => true

/-- The member `std::string_view::substr(pos)`: throws `std::out_of_range` when
`pos > size()`, otherwise the view from `pos` to the end. -/
def substr (s : Str) (pos : Nat) : Except Exn Str :=
  if pos > s.length then .error .out_of_range else .ok (s.drop pos)

/-! Boost.Beast: verbs, fields, token lists -/

section Beast

/-- The enumeration `http::verb`. -/
inductive Verb where
  | unknown | delete_ | get | head | post | put | connect | options | trace
  | copy | lock | mkcol | move | propfind | proppatch | search | unlock | bind
  | rebind | unbind | acl | report | mkactivity | checkout | merge | msearch
  | notify | subscribe | unsubscribe | patch | purge | mkcalendar | link | unlink
deriving DecidableEq, Repr

/-- Status codes (`http::status`) by their integer value. -/
abbrev Status := Nat

/-- The enumerator `http::status::ok`. -/
def Status.ok : Status := 200

/-- The enumerator `http::status::method_not_allowed`. -/
def Status.method_not_allowed : Status := 405

/-- The function `beast::iequals`: equality of strings up to ASCII case. -/
def iequals (a b : Str) : Bool := a.map Char.toLower == b.map Char.toLower

/-- The header container `http::fields`: name/value pairs in their order. -/
abbrev Fields := List (Str × Str)

/-- The member `basic_fields::find(name)`: the value of the first field with
that name, if there is one. -/
def Fields.find (fs : Fields) (name : Str) : Option Str :=
  (List.find? (fun f => iequals f.1 name) fs).map Prod.snd

/-- The member `basic_fields::operator[]`: the value of the first field with
that name, the empty string when there is none. -/
def Fields.at (fs : Fields) (name : Str) : Str :=
  (fs.find name).getD []

/-- The member `basic_fields::count(name)`. -/
def Fields.count (fs : Fields) (name : Str) : Nat :=
  List.countP (fun f => iequals f.1 name) fs

/-- The member `basic_fields::erase(name)`: removes every field of that name. -/
def Fields.erase (fs : Fields) (name : Str) : Fields :=
  List.filter (fun f => !iequals f.1 name) fs

/-- The member `basic_fields::set_element`: removes every field of that name,
then appends the new one. -/
def Fields.set_element (fs : Fields) (name value : Str) : Fields :=
  fs.erase name ++ [(name, value)]

/-- The names of the `http::field` enumerators used by `main.cpp` and by the
message functions it calls. -/
def field.content_type : Str := "Content-Type".toList

/-- The name of `http::field::content_length`. -/
def field.content_length : Str := "Content-Length".toList

/-- The name of `http::field::connection`. -/
def field.connection : Str := "Connection".toList

/-- The name of `http::field::transfer_encoding`. -/
def field.transfer_encoding : Str := "Transfer-Encoding".toList

/-- The predicate `detail::is_token_char`: the `tchar` of RFC 7230. -/
def is_token_char (c : Char) : Bool :=
  c.isAlphanum || "!#$%&'*+-.^_`|~".toList.contains c

/-- The function `detail::skip_ows`: skips spaces and horizontal tabs. -/
def skip_ows : Str → Str
  | [] => []
  | c :: cs => if c == ' ' || c == '\t' then skip_ows cs else c :: cs

/-- The function `detail::trim`: the string without its leading and its
trailing spaces and horizontal tabs. -/
def trim (s : Str) : Str := (skip_ows (skip_ows s).reverse).reverse

/-- The greatest size of a field name, and of a field value, that
`basic_fields` stores: offsets are 16-bit numbers and two bytes go to the
separator (`max_name_size`, `max_value_size`). -/
def max_field_size : Nat := 65533

/-- The member `basic_fields::set(name, value)`: throws when the name or the
value is over the size limit, otherwise trims the value, removes every field of
that name and appends the new one. -/
def Fields.set (fs : Fields) (name value : Str) : Except Exn Fields :=
  if name.length > max_field_size then .error .length_error
  else if value.length > max_field_size then .error .length_error
  else .ok (fs.set_element name (trim value))

/-- One `token_list::const_iterator::increment()`: from the rest of the input
to the next token and the input after it, or `none` at the end of the list
(also on a syntax error).  `need_comma` says that a token was just read.
The fuel bounds the commas skipped; the length of the input plus one is enough. -/
def token_list_increment : Nat → Bool → Str → Option (Str × Str)
  | 0, _, _ => none
  | fuel + 1, need_comma, s =>
    match skip_ows s with
    | [] => none
    | c :: cs =>
      if is_token_char c then
        if need_comma then none
        else some ((c :: cs).span is_token_char)
      else if c != ',' then none
      else token_list_increment fuel false cs

/-- The tokens a `token_list` iterates over, from `begin()` to `end()`. -/
def token_list_from : Nat → Bool → Str → List Str
  | 0, _, _ => []
  | fuel + 1, need_comma, s =>
    match token_list_increment (s.length + 1) need_comma s with
    | none => []
    | some (tok, rest) => tok :: token_list_from fuel true rest

/-- The range `http::token_list{value}`. -/
def token_list (value : Str) : List Str :=
  token_list_from (value.length + 1) false value

/-- The member `token_list::exists(s)`: some token equals `s` up to case. -/
def token_list_exists (value s : Str) : Bool :=
  (token_list value).any (fun v => iequals s v)

/-- Joins tokens with a comma and a space, as the filters below append them. -/
def join_tokens : List Str → Str
  | [] => []
  | [t] => t
  | t :: ts => t ++ ", ".toList ++ join_tokens ts

/-- The function `detail::filter_token_list`: the tokens of `value` that do not
satisfy `pred`, joined. -/
def filter_token_list (value : Str) (pred : Str → Bool) : Str :=
  join_tokens ((token_list value).filter (fun t => !pred t))

/-- The function `detail::filter_token_list_last`: the tokens of `value`,
without the last one when it satisfies `pred`, joined. -/
def filter_token_list_last (value : Str) (pred : Str → Bool) : Str :=
  let ts := token_list value
  match ts.getLast? with
  | none => []
  | some t => if pred t then join_tokens ts.dropLast else join_tokens ts

/-! Boost.Beast: messages -/

/-- A `StringRequest`, that is `http::request<http::string_body>`. -/
structure Request where
  method : Verb
  target : Str
  version : Nat
  fields : Fields
  body : Str
deriving DecidableEq, Repr

/-- A `StringResponse`, that is `http::response<http::string_body>`. -/
structure Response where
  result : Status
  version : Nat
  fields : Fields
  body : Str
deriving DecidableEq, Repr

/-- The member `basic_fields::get_keep_alive_impl(version)`. -/
def get_keep_alive_impl (fs : Fields) (version : Nat) : Bool :=
  match fs.find field.connection with
  | none => if version < 11 then false else true
  | some value =>
    if version < 11 then token_list_exists value "keep-alive".toList
    else !token_list_exists value "close".toList

/-- The member `message::keep_alive()` of a request. -/
def Request.keep_alive (request : Request) : Bool :=
  get_keep_alive_impl request.fields request.version

/-- The member `message::keep_alive()` of a response. -/
def Response.keep_alive (response : Response) : Bool :=
  get_keep_alive_impl response.fields response.version

/-- The function `detail::keep_alive_impl`: the new value of the Connection
field, from its old value. -/
def keep_alive_impl (value : Str) (version : Nat) (keep_alive : Bool) : Str :=
  let is_close := fun t => iequals t "close".toList
  let is_keep_alive := fun t => iequals t "keep-alive".toList
  if version < 11 then
    if keep_alive then
      let s := filter_token_list value is_close
      if s.isEmpty then "keep-alive".toList
      else if !token_list_exists value "keep-alive".toList then s ++ ", keep-alive".toList
      else s
    else
      filter_token_list value (fun t => is_close t || is_keep_alive t)
  else
    if keep_alive then
      filter_token_list value (fun t => is_close t || is_keep_alive t)
    else
      let s := filter_token_list value is_keep_alive
      if s.isEmpty then "close".toList
      else if !token_list_exists value "close".toList then s ++ ", close".toList
      else s

/-- The member `basic_fields::set_keep_alive_impl(version, keep_alive)`. -/
def set_keep_alive_impl (fs : Fields) (version : Nat) (keep_alive : Bool) :
    Except Exn Fields :=
  let buf := keep_alive_impl (fs.at field.connection) version keep_alive
  if buf.isEmpty then .ok (fs.erase field.connection) else fs.set field.connection buf

/-- The member `basic_fields::set_chunked_impl(false)`: takes a final
`chunked` off the Transfer-Encoding field. -/
def set_chunked_impl_false (fs : Fields) : Except Exn Fields :=
  match fs.find field.transfer_encoding with
  | none => .ok fs
  | some value =>
    let buf := filter_token_list_last value (fun t => iequals t "chunked".toList)
    if buf.isEmpty then .ok (fs.erase field.transfer_encoding)
    else fs.set field.transfer_encoding buf

/-- The member `basic_fields::get_chunked_impl()`: the last token of the
Transfer-Encoding field is `chunked`. -/
def get_chunked_impl (fs : Fields) : Bool :=
  match (token_list (fs.at field.transfer_encoding)).getLast? with
  | none => false
  | some t => iequals t "chunked".toList

/-- The constructor `StringResponse response(status, http_version)`: no fields,
an empty body. -/
def Response.new (status : Status) (http_version : Nat) : Response :=
  { result := status, version := http_version, fields := [], body := [] }

/-- The member `response.set(name, value)`. -/
def Response.set (response : Response) (name value : Str) : Except Exn Response :=
  match response.fields.set name value with
  | .error e => .error e
  | .ok fields => .ok { response with fields := fields }

/-- The assignment `response.body() = body`. -/
def Response.set_body (response : Response) (body : Str) : Response :=
  { response with body := body }

/-- The member `message::content_length(n)`: sets Content-Length to the decimal
digits of `n` and clears chunked transfer encoding.  The digits of a 64-bit
number are at most twenty and none of them is a blank: `set` would store them
as they are and would not throw, so they go to `set_element` at once. -/
def Response.content_length (response : Response) (n : Nat) : Except Exn Response :=
  match set_chunked_impl_false
      (response.fields.set_element field.content_length (Nat.toDigits 10 n)) with
  | .error e => .error e
  | .ok fields => .ok { response with fields := fields }

/-- The member `message::keep_alive(value)` of a response. -/
def Response.set_keep_alive (response : Response) (value : Bool) : Except Exn Response :=
  match set_keep_alive_impl response.fields response.version value with
  | .error e => .error e
  | .ok fields => .ok { response with fields := fields }

/-- The informational statuses that `http::status` enumerates (`continue_`,
`switching_protocols`, `processing`): those whose `to_status_class` is
`status_class::informational`. -/
def is_informational (status : Status) : Bool :=
  status == 100 || status == 101 || status == 102

/-- The member `message::need_eof()` of a response: whether the connection has
to be closed to mark the end of the message. -/
def Response.need_eof (response : Response) : Bool :=
  if response.result == 204 || response.result == 304 ||
      is_informational response.result ||
      decide (response.fields.count field.content_length > 0) ||
      get_chunked_impl response.fields then
    !response.keep_alive
  else true

end Beast

/-! `main.cpp` -/

/-- The result of one `http::read(socket, buffer, request, ec)`: the error code
it stores and the request object it filled. -/
structure ReadResult where
  ec : ErrorCode
  request : Request
deriving DecidableEq, Repr

/-- The function `ReadRequest` (lines 29-45), applied to what `http::read` did. -/
def ReadRequest (read : ReadResult) : Except Exn (Option Request) :=
  if read.ec.is_end_of_stream then .ok none
  else if read.ec.failed then
    .error (.runtime_error ("Failed to read request: ".toList ++ read.ec.message))
  else .ok (some read.request)

/-- The constant `ContentType::TEXT_HTML` (line 59). -/
def ContentType.TEXT_HTML : Str := "text/html".toList

/-- The function `MakeStringResponse` (lines 64-73). -/
def MakeStringResponse (status : Status) (body : Str) (http_version : Nat)
    (keep_alive : Bool) (content_type : Str := ContentType.TEXT_HTML) :
    Except Exn Response := do
  let response := Response.new status http_version
  let response ← response.set field.content_type content_type
  let response := response.set_body body
  let response ← response.content_length body.length
  let response ← response.set_keep_alive keep_alive
  return response

/-- The function `MakeEmptyResponse` (lines 75-83). -/
def MakeEmptyResponse (status : Status) (content_length : Str) (http_version : Nat)
    (keep_alive : Bool) (content_type : Str := ContentType.TEXT_HTML) :
    Except Exn Response := do
  let response := Response.new status http_version
  let response ← response.set field.content_type content_type
  let response ← response.set field.content_length content_length
  let response ← response.set_keep_alive keep_alive
  return response

/-- The function `HandleRequest` (lines 85-106). -/
def HandleRequest (request : Request) : Except Exn Response :=
  let text_response := fun (status : Status) (text : Str) =>
    MakeStringResponse status text request.version request.keep_alive
  let empty_response := fun (status : Status) =>
    MakeStringResponse status (request.fields.at "Content-Length".toList) request.version
      request.keep_alive
  match request.method with
  | .get =>
    match substr request.target 1 with
    | .error e => .error e
    | .ok name => text_response Status.ok ("Hello, ".toList ++ name)
  | .head => empty_response Status.ok
  | _ =>
    match text_response Status.method_not_allowed "Invalid method".toList with
    | .error e => .error e
    | .ok response => response.set "Allow".toList "GET, HEAD".toList

/-- The behaviour of the peer and of the transport on one connection: what the
n-th `http::read` yields, whether the n-th `http::write` fails (and with
which error code), and the error code of `shutdown`. -/
structure Socket where
  read : Nat → ReadResult
  write : Nat → Option ErrorCode
  shutdown : ErrorCode

/-- The effects of `HandleConnection`, in the order they happen. -/
inductive Event where
  /-- A call of `http::read` (inside `ReadRequest`). -/
  | read
  /-- The call `DumpRequest(*request)`: the request goes to `std::cout`. -/
  | cout (request : Request)
  /-- A call of `http::write` that sent the response. -/
  | write (response : Response)
  /-- A call of `http::write` that failed and threw. -/
  | write_failed (response : Response)
  /-- The line `std::cerr << e.what()` of the catch block. -/
  | cerr (e : Exn)
  /-- The call `socket.shutdown(tcp::socket::shutdown_send, ec)`. -/
  | shutdown
deriving DecidableEq, Repr

/-- How the `try` block of `HandleConnection` is left. -/
inductive LoopEnd where
  /-- The loop is still running (the fuel of the model is used up). -/
  | running
  /-- The loop ended: `ReadRequest` returned `nullopt`, or `break`. -/
  | finished
  /-- An exception left the loop. -/
  | thrown (e : Exn)
deriving DecidableEq, Repr

/-- The `while` loop of `HandleConnection` (lines 115-126) from its `i`-th
iteration on, run for at most `fuel` iterations. -/
def serve_loop (socket : Socket) (handle_request : Request → Except Exn Response) :
    Nat → Nat → List Event × LoopEnd
  | 0, _ => ([], .running)
  | fuel + 1, i =>
    match ReadRequest (socket.read i) with
    | .error e => ([.read], .thrown e)
    | .ok none => ([.read], .finished)
    | .ok (some request) =>
      match handle_request request with
      | .error e => ([.read, .cout request], .thrown e)
      | .ok response =>
        match socket.write i with
        | some ec => ([.read, .cout request, .write_failed response], .thrown (.system_error ec))
        | none =>
          if response.need_eof then ([.read, .cout request, .write response], .finished)
          else
            let rest := serve_loop socket handle_request fuel (i + 1)
            (.read :: .cout request :: .write response :: rest.1, rest.2)

/-- How a call of `HandleConnection` ends. -/
inductive Completion where
  /-- It has not returned within the fuel of the model. -/
  | running
  /-- It returned to its caller. -/
  | returned
  /-- An exception that is not a `std::exception` left it. -/
  | escaped (e : Exn)
deriving DecidableEq, Repr

/-- The function `HandleConnection` (lines 108-133): the effects of a call and
how it ends, the loop run for at most `fuel` iterations. -/
def HandleConnection (socket : Socket) (handle_request : Request → Except Exn Response)
    (fuel : Nat) : List Event × Completion :=
  match serve_loop socket handle_request fuel 0 with
  | (events, .running) => (events, .running)
  | (events, .finished) => (events ++ [.shutdown], .returned)
  | (events, .thrown e) =>
    if e.is_std_exception then (events ++ [.cerr e, .shutdown], .returned)
    else (events, .escaped e)

/-! Auxiliary definitions for the statements -/

/-- The Connection field that `keep_alive(value)` leaves in a message that had
none: the third field of every response of `main.cpp`, when present. -/
def connection_field (version : Nat) (keep_alive : Bool) : Fields :=
  if version < 11 then
    (if keep_alive then [(field.connection, "keep-alive".toList)] else [])
  else (if keep_alive then [] else [(field.connection, "close".toList)])

/-- A response with the given body and the fields Content-Type, Content-Length
and, when `keep_alive(value)` leaves one, Connection: what `MakeStringResponse`
and `MakeEmptyResponse` return when `set` accepts their arguments. -/
def built_response (status : Status) (body : Str) (version : Nat) (keep_alive : Bool)
    (content_type content_length : Str) : Response :=
  { result := status, version := version,
    fields := [(field.content_type, content_type), (field.content_length, content_length)] ++
      connection_field version keep_alive,
    body := body }

/-- The response of `MakeStringResponse` with the content type "text/html". -/
def string_response (status : Status) (body : Str) (version : Nat) (keep_alive : Bool) :
    Response :=
  built_response status body version keep_alive ContentType.TEXT_HTML
    (Nat.toDigits 10 body.length)

/-- The 405 response of `HandleRequest`, as built on lines 102-103: the response
with the body "Invalid method" and the field Allow after the others. -/
def invalid_method_response (request : Request) : Response :=
  { string_response Status.method_not_allowed "Invalid method".toList request.version
      request.keep_alive with
    fields := (string_response Status.method_not_allowed "Invalid method".toList
        request.version request.keep_alive).fields ++
      [("Allow".toList, "GET, HEAD".toList)] }

/-- The Connection field that the message functions read, the first field of
that name, names the option `close`, and, in a request older than HTTP/1.1, does
not name the option `keep-alive` as well. -/
def connection_close (request : Request) : Bool :=
  match request.fields.find field.connection with
  | none => false
  | some value =>
    token_list_exists value "close".toList &&
      (decide (11 ≤ request.version) || !token_list_exists value "keep-alive".toList)

/-- An HTTP/1.0 request without `Connection: keep-alive`: the version is 10 and
no Connection field of the request names the option `keep-alive`. -/
def http10_without_keep_alive (request : Request) : Bool :=
  request.version == 10 &&
    request.fields.all (fun f =>
      !(iequals f.1 field.connection && token_list_exists f.2 "keep-alive".toList))

/-- The `k`-th iteration of the loop goes round: the `k`-th read yields a
request, the handler returns a response for it, the `k`-th write succeeds and the
response does not need the end of the connection, so that the loop reads again. -/
def goes_round (socket : Socket) (handle_request : Request → Except Exn Response)
    (k : Nat) : Bool :=
  match ReadRequest (socket.read k) with
  | .ok (some request) =>
    match handle_request request with
    | .ok response => (socket.write k).isNone && !response.need_eof
    | .error _ => false
  | _ => false

/-- The effects of iterations that served one request each: for every request
and its response, in order, the read, the dump of the request and the write of
the response. -/
def rounds_of : List (Request × Response) → List Event
  | [] => []
  | (request, response) :: rest =>
    .read :: .cout request :: .write response :: rounds_of rest

/-- How the loop stops in its `k`-th iteration, or that it has not stopped: the
effects of the iteration that do not belong to a served request, and how the
loop is left. -/
def loop_stop (socket : Socket) (handle_request : Request → Except Exn Response)
    (k : Nat) (stop : List Event) (ending : LoopEnd) : Prop :=
  (stop = [] ∧ ending = .running) ∨
  (stop = [] ∧ ending = .finished ∧ 0 < k) ∨
  (stop = [.read] ∧ ending = .finished ∧ ReadRequest (socket.read k) = .ok none) ∨
  (∃ e, stop = [.read] ∧ ending = .thrown e ∧ ReadRequest (socket.read k) = .error e) ∨
  (∃ request e, stop = [.read, .cout request] ∧ ending = .thrown e ∧
    ReadRequest (socket.read k) = .ok (some request) ∧ handle_request request = .error e) ∨
  (∃ request response ec, stop = [.read, .cout request, .write_failed response] ∧
    ending = .thrown (.system_error ec) ∧
    ReadRequest (socket.read k) = .ok (some request) ∧
    handle_request request = .ok response ∧ socket.write k = some ec)

/-- An HTTP/1.1 request without `Connection: close`: the version is 11 and no
Connection field of the request names the option `close`. -/
def http11_without_close (request : Request) : Bool :=
  request.version == 11 &&
    request.fields.all (fun f =>
      !(iequals f.1 field.connection && token_list_exists f.2 "close".toList))

/-- How a call of `HandleConnection` ends after `k` served requests, or that it
has not ended: the effects that follow the served requests, and how the call
ends.  The cases are: still running; the `break` after a response that needs
the end of the connection; the end of the stream; an error of the read; an
error of the handler that is a `std::exception`; one that is not; an error of
the write. -/
def connection_stop (socket : Socket) (handle_request : Request → Except Exn Response)
    (k : Nat) (tail : List Event) (completion : Completion) : Prop :=
  (tail = [] ∧ completion = .running) ∨
  (tail = [.shutdown] ∧ completion = .returned ∧ 0 < k) ∨
  (tail = [.read, .shutdown] ∧ completion = .returned ∧
    ReadRequest (socket.read k) = .ok none) ∨
  (∃ e, tail = [.read, .cerr e, .shutdown] ∧ completion = .returned ∧
    ReadRequest (socket.read k) = .error e) ∨
  (∃ request e, tail = [.read, .cout request, .cerr e, .shutdown] ∧
    completion = .returned ∧ ReadRequest (socket.read k) = .ok (some request) ∧
    handle_request request = .error e ∧ e.is_std_exception = true) ∨
  (∃ request e, tail = [.read, .cout request] ∧ completion = .escaped e ∧
    ReadRequest (socket.read k) = .ok (some request) ∧
    handle_request request = .error e ∧ e.is_std_exception = false) ∨
  (∃ request response ec,
    tail = [.read, .cout request, .write_failed response, .cerr (.system_error ec),
      .shutdown] ∧
    completion = .returned ∧ ReadRequest (socket.read k) = .ok (some request) ∧
    handle_request request = .ok response ∧ socket.write k = some ec)

/-- The reads and writes among the effects, in their order: `true` for a call
of `http::read`, `false` for a call of `http::write`, sent or failed. -/
def read_write_ops : List Event → List Bool
  | [] => []
  | .read :: rest => true :: read_write_ops rest
  | .write _ :: rest => false :: read_write_ops rest
  | .write_failed _ :: rest => false :: read_write_ops rest
  | _ :: rest => read_write_ops rest

/-- The sequence read, write, read, write, ... of the given length, in the
coding of `read_write_ops`. -/
def alternating : Nat → List Bool
  | 0 => []
  | 1 => [true]
  | n + 2 => true :: false :: alternating n

/-- The effect is a call of `http::read`. -/
def Event.is_read : Event → Bool
  | .read => true
  | _ => false

/-- The effect is the dump of a request, which follows every read that returned
a request. -/
def Event.is_request : Event → Bool
  | .cout _ => true
  | _ => false

/-- The effect is a call of `http::write` that sent its response. -/
def Event.is_written : Event → Bool
  | .write _ => true
  | _ => false

/-! Values for the instances of the statements -/

/-- The error code of an operation that succeeded. -/
def no_error : ErrorCode := ⟨"system".toList, 0, "Success".toList⟩

/-- The request `GET /a HTTP/1.1` with `Connection: close`. -/
def get_with_close : Request :=
  { method := .get, target := "/a".toList, version := 11,
    fields := [("Connection".toList, "close".toList)], body := [] }

/-- The request `GET /b HTTP/1.1` without a Connection field. -/
def get_http11 : Request :=
  { method := .get, target := "/b".toList, version := 11, fields := [], body := [] }

/-- The request `POST /c HTTP/1.0` with a Host field and no Connection field. -/
def post_http10 : Request :=
  { method := .post, target := "/c".toList, version := 10,
    fields := [("Host".toList, "example".toList)], body := [] }

/-- A connection on which every read yields `get_with_close` and every write
succeeds. -/
def socket_close_first : Socket :=
  { read := fun _ => ⟨no_error, get_with_close⟩, write := fun _ => none, shutdown := no_error }

/-- A connection whose first read yields `get_http11`, every later one
`post_http10`, and on which every write succeeds. -/
def socket_http10_second : Socket :=
  { read := fun n => if n = 0 then ⟨no_error, get_http11⟩ else ⟨no_error, post_http10⟩,
    write := fun _ => none, shutdown := no_error }

/-- A connection whose first two reads yield `get_http11`, every later one
`get_with_close`, and on which every write succeeds. -/
def socket_three_requests : Socket :=
  { read := fun n => if n < 2 then ⟨no_error, get_http11⟩ else ⟨no_error, get_with_close⟩,
    write := fun _ => none, shutdown := no_error }

/-- The request `GET /a HTTP/1.1` with the two fields `Connection: upgrade` and
`Connection: close`, in this order. -/
def upgrade_then_close : Request :=
  { method := .get, target := "/a".toList, version := 11,
    fields := [("Connection".toList, "upgrade".toList),
               ("Connection".toList, "close".toList)],
    body := [] }

/-- The request `GET /a HTTP/1.0` with the field `Connection: close, keep-alive`. -/
def close_and_keep_alive : Request :=
  { method := .get, target := "/a".toList, version := 10,
    fields := [("Connection".toList, "close, keep-alive".toList)], body := [] }

/-- A connection on which every read yields `upgrade_then_close` and every write
succeeds. -/
def socket_upgrade_then_close : Socket :=
  { read := fun _ => ⟨no_error, upgrade_then_close⟩, write := fun _ => none,
    shutdown := no_error }

/-- A connection on which every read yields `close_and_keep_alive` and every
write succeeds. -/
def socket_close_and_keep_alive : Socket :=
  { read := fun _ => ⟨no_error, close_and_keep_alive⟩, write := fun _ => none,
    shutdown := no_error }

/-- The error code `http::error::end_of_stream`. -/
def end_of_stream : ErrorCode := ⟨http_category, 1, "end of stream".toList⟩

/-- The error code `http::error::partial_message`. -/
def partial_message : ErrorCode := ⟨http_category, 2, "partial message".toList⟩

/-- The request object of a read that did not parse a request. -/
def no_request : Request :=
  { method := .unknown, target := [], version := 11, fields := [], body := [] }

/-- A connection whose first read fails with `partial_message`, and whose
shutdown fails too. -/
def socket_read_error : Socket :=
  { read := fun _ => ⟨partial_message, no_request⟩, write := fun _ => none,
    shutdown := partial_message }

/-- A connection whose first read yields `get_http11`, whose later reads report
the end of the stream, and on which every write succeeds. -/
def socket_eos_after_one : Socket :=
  { read := fun n => if n = 0 then ⟨no_error, get_http11⟩ else ⟨end_of_stream, no_request⟩,
    write := fun _ => none, shutdown := no_error }

/-! Lemmas on the library model -/

theorem token_list_nil : token_list [] = [] := rfl

theorem keep_alive_impl_nil (version : Nat) (keep_alive : Bool) :
    keep_alive_impl [] version keep_alive =
      if version < 11 then (if keep_alive then "keep-alive".toList else [])
      else (if keep_alive then [] else "close".toList) := by
  unfold keep_alive_impl filter_token_list
  simp only [token_list_nil, List.filter_nil, join_tokens]
  by_cases h : version < 11 <;> cases keep_alive <;> simp [h]

theorem iequals_content_type_connection :
    iequals field.content_type field.connection = false := by decide

theorem iequals_content_length_connection :
    iequals field.content_length field.connection = false := by decide

/-- On a name and a value within the size limit, `set` stores the trimmed value. -/
theorem Fields.set_of_le (fs : Fields) (name value : Str)
    (hname : name.length ≤ max_field_size) (hvalue : value.length ≤ max_field_size) :
    fs.set name value = .ok (fs.set_element name (trim value)) := by
  unfold Fields.set
  rw [if_neg (Nat.not_lt.mpr hname), if_neg (Nat.not_lt.mpr hvalue)]

/-- On a value over the size limit, `set` throws. -/
theorem Fields.set_of_gt (fs : Fields) (name value : Str)
    (hvalue : value.length > max_field_size) :
    fs.set name value = .error .length_error := by
  unfold Fields.set
  by_cases hname : name.length > max_field_size
  · rw [if_pos hname]
  · rw [if_neg hname, if_pos hvalue]

/-- The member `keep_alive(value)` on the two fields of a fresh response. -/
theorem set_keep_alive_impl_fresh (content_type content_length : Str) (version : Nat)
    (keep_alive : Bool) :
    set_keep_alive_impl
        [(field.content_type, content_type), (field.content_length, content_length)]
        version keep_alive =
      .ok ([(field.content_type, content_type), (field.content_length, content_length)] ++
        connection_field version keep_alive) := by
  have h4 := iequals_content_type_connection
  have h5 := iequals_content_length_connection
  have hat : Fields.at
      [(field.content_type, content_type), (field.content_length, content_length)]
      field.connection = [] := by
    simp [Fields.at, Fields.find, List.find?_cons, h4, h5]
  have hclose : ∀ fs : Fields, fs.set field.connection "close".toList =
      .ok (fs.set_element field.connection "close".toList) :=
    fun fs => Fields.set_of_le fs _ _ (by decide) (by decide)
  have hkeep : ∀ fs : Fields, fs.set field.connection "keep-alive".toList =
      .ok (fs.set_element field.connection "keep-alive".toList) :=
    fun fs => Fields.set_of_le fs _ _ (by decide) (by decide)
  unfold set_keep_alive_impl
  rw [hat, keep_alive_impl_nil]
  by_cases h : version < 11 <;> cases keep_alive
  · simp [h, connection_field, Fields.erase, h4, h5]
  · simp only [h, if_true]
    rw [show (List.isEmpty "keep-alive".toList) = false from rfl]
    simp only [Bool.false_eq_true, if_false, hkeep]
    simp [connection_field, h, Fields.set_element, Fields.erase, h4, h5]
  · simp only [h, if_false, Bool.false_eq_true]
    rw [show (List.isEmpty "close".toList) = false from rfl]
    simp only [Bool.false_eq_true, if_false, hclose]
    simp [connection_field, h, Fields.set_element, Fields.erase, h4, h5]
  · simp [h, connection_field, Fields.erase, h4, h5]

/-- What `MakeStringResponse` returns: it throws when the content type is over
the size limit, and builds the response with the trimmed content type otherwise. -/
theorem MakeStringResponse_eq (status : Status) (body : Str) (version : Nat)
    (keep_alive : Bool) (content_type : Str) :
    MakeStringResponse status body version keep_alive content_type =
      if content_type.length > max_field_size then .error .length_error
      else .ok (built_response status body version keep_alive (trim content_type)
        (Nat.toDigits 10 body.length)) := by
  have h1 : iequals field.content_type field.content_length = false := by decide
  have h2 : iequals field.content_type field.transfer_encoding = false := by decide
  have h3 : iequals field.content_length field.transfer_encoding = false := by decide
  by_cases hlen : content_type.length > max_field_size
  · rw [if_pos hlen]
    simp [MakeStringResponse, Response.set, Response.new, Fields.set_of_gt _ _ _ hlen,
      bind, Except.bind]
  · rw [if_neg hlen]
    have hset := Fields.set_of_le [] field.content_type content_type (by decide)
      (Nat.not_lt.mp hlen)
    simp only [MakeStringResponse, Response.set, Response.new, hset, bind, Except.bind,
      Response.set_body, Response.content_length, Response.set_keep_alive, pure, Except.pure]
    have hfields : Fields.set_element (Fields.set_element [] field.content_type
        (trim content_type)) field.content_length (Nat.toDigits 10 body.length) =
        [(field.content_type, trim content_type),
          (field.content_length, Nat.toDigits 10 body.length)] := by
      simp [Fields.set_element, Fields.erase, h1]
    have hchunked : set_chunked_impl_false
        [(field.content_type, trim content_type),
          (field.content_length, Nat.toDigits 10 body.length)] =
        .ok [(field.content_type, trim content_type),
          (field.content_length, Nat.toDigits 10 body.length)] := by
      simp [set_chunked_impl_false, Fields.find, List.find?_cons, h2, h3]
    simp only [hfields, hchunked, set_keep_alive_impl_fresh]
    rfl

/-- With the default content type `MakeStringResponse` does not throw. -/
theorem MakeStringResponse_default (status : Status) (body : Str) (version : Nat)
    (keep_alive : Bool) :
    MakeStringResponse status body version keep_alive =
      .ok (string_response status body version keep_alive) := by
  rw [MakeStringResponse_eq, if_neg (by decide)]
  rfl

/-- What `MakeEmptyResponse` returns: it throws when the content type or the
content length is over the size limit, and builds the response with the two
trimmed values otherwise. -/
theorem MakeEmptyResponse_eq (status : Status) (content_length : Str) (version : Nat)
    (keep_alive : Bool) (content_type : Str) :
    MakeEmptyResponse status content_length version keep_alive content_type =
      if content_type.length > max_field_size then .error .length_error
      else if content_length.length > max_field_size then .error .length_error
      else .ok (built_response status [] version keep_alive (trim content_type)
        (trim content_length)) := by
  have h1 : iequals field.content_type field.content_length = false := by decide
  by_cases hlen : content_type.length > max_field_size
  · rw [if_pos hlen]
    simp [MakeEmptyResponse, Response.set, Response.new, Fields.set_of_gt _ _ _ hlen,
      bind, Except.bind]
  · rw [if_neg hlen]
    have hset := Fields.set_of_le [] field.content_type content_type (by decide)
      (Nat.not_lt.mp hlen)
    by_cases hlen2 : content_length.length > max_field_size
    · rw [if_pos hlen2]
      simp [MakeEmptyResponse, Response.set, Response.new, hset,
        Fields.set_of_gt _ _ _ hlen2, bind, Except.bind]
    · rw [if_neg hlen2]
      have hset2 := Fields.set_of_le (Fields.set_element [] field.content_type
        (trim content_type)) field.content_length content_length (by decide)
        (Nat.not_lt.mp hlen2)
      simp only [MakeEmptyResponse, Response.set, Response.new, hset, hset2, bind,
        Except.bind, Response.set_keep_alive, pure, Except.pure]
      have hfields : Fields.set_element (Fields.set_element [] field.content_type
          (trim content_type)) field.content_length (trim content_length) =
          [(field.content_type, trim content_type),
            (field.content_length, trim content_length)] := by
        simp [Fields.set_element, Fields.erase, h1]
      simp only [hfields, set_keep_alive_impl_fresh]
      rfl

/-- Reading the keep-alive flag back from fields that hold no Connection field
but the one `keep_alive(value)` wrote. -/
theorem get_keep_alive_impl_connection_field (content_type content_length : Str)
    (version : Nat) (keep_alive : Bool) :
    get_keep_alive_impl
      ([(field.content_type, content_type), (field.content_length, content_length)] ++
        connection_field version keep_alive) version = keep_alive := by
  have h4 := iequals_content_type_connection
  have h5 := iequals_content_length_connection
  have h6 : iequals field.connection field.connection = true := by decide
  have h7 : token_list_exists "keep-alive".toList "keep-alive".toList = true := by decide
  have h8 : token_list_exists "close".toList "close".toList = true := by decide
  simp only [String.toList] at h7 h8
  by_cases h : version < 11 <;> cases keep_alive <;>
    simp [get_keep_alive_impl, connection_field, Fields.find, List.find?_cons, h, h4, h5, h6,
      h7, h8]

theorem built_response_keep_alive (status : Status) (body : Str) (version : Nat)
    (keep_alive : Bool) (content_type content_length : Str) :
    (built_response status body version keep_alive content_type content_length).keep_alive =
      keep_alive :=
  get_keep_alive_impl_connection_field _ _ _ _

/-- Looking up Content-Type and Content-Length in the fields of a built response. -/
theorem find_built_fields (content_type content_length : Str) (version : Nat)
    (keep_alive : Bool) :
    Fields.find ([(field.content_type, content_type), (field.content_length, content_length)] ++
        connection_field version keep_alive) field.content_type = some content_type ∧
    Fields.find ([(field.content_type, content_type), (field.content_length, content_length)] ++
        connection_field version keep_alive) field.content_length = some content_length ∧
    Fields.count ([(field.content_type, content_type), (field.content_length, content_length)] ++
        connection_field version keep_alive) field.content_length = 1 := by
  have h1 : iequals field.content_type field.content_type = true := by decide
  have h2 : iequals field.content_type field.content_length = false := by decide
  have h3 : iequals field.content_length field.content_length = true := by decide
  have h4 : iequals field.connection field.content_length = false := by decide
  refine ⟨?_, ?_, ?_⟩
  · simp [Fields.find, List.find?_cons, h1]
  · simp [Fields.find, List.find?_cons, h2, h3]
  · by_cases h : version < 11 <;> cases keep_alive <;>
      simp [Fields.count, connection_field, List.countP_cons, h, h2, h3, h4]

/-- A response with a Content-Length field needs the end of the connection
exactly when it is not keep-alive. -/
theorem need_eof_of_count (response : Response)
    (h : response.fields.count field.content_length = 1) :
    response.need_eof = !response.keep_alive := by
  simp [Response.need_eof, h]

theorem built_response_need_eof (status : Status) (body : Str) (version : Nat)
    (keep_alive : Bool) (content_type content_length : Str) :
    (built_response status body version keep_alive content_type content_length).need_eof =
      !keep_alive := by
  rw [need_eof_of_count, built_response_keep_alive]
  exact (find_built_fields _ _ _ _).2.2

/-- Setting the Allow field of a built response: the field is appended. -/
theorem set_allow_fields (content_type content_length : Str) (version : Nat)
    (keep_alive : Bool) :
    Fields.set ([(field.content_type, content_type), (field.content_length, content_length)] ++
        connection_field version keep_alive) "Allow".toList "GET, HEAD".toList =
      .ok ([(field.content_type, content_type), (field.content_length, content_length)] ++
        connection_field version keep_alive ++ [("Allow".toList, "GET, HEAD".toList)]) := by
  have h1 : iequals field.content_type "Allow".toList = false := by decide
  have h2 : iequals field.content_length "Allow".toList = false := by decide
  have h3 : iequals field.connection "Allow".toList = false := by decide
  have htrim : trim "GET, HEAD".toList = "GET, HEAD".toList := by decide
  rw [Fields.set_of_le _ _ _ (by decide) (by decide), htrim]
  simp only [String.toList] at h1 h2 h3
  by_cases h : version < 11 <;> cases keep_alive <;>
    simp [Fields.set_element, Fields.erase, connection_field, List.filter_cons, h, h1, h2, h3]

/-- The four ways through `HandleRequest`. -/
theorem HandleRequest_cases (request : Request) :
    (request.method = .get ∧ request.target = [] ∧
      HandleRequest request = .error .out_of_range) ∨
    (request.method = .get ∧ request.target ≠ [] ∧
      HandleRequest request = .ok (string_response Status.ok
        ("Hello, ".toList ++ request.target.drop 1) request.version request.keep_alive)) ∨
    (request.method = .head ∧
      HandleRequest request = .ok (string_response Status.ok
        (request.fields.at "Content-Length".toList) request.version request.keep_alive)) ∨
    (request.method ≠ .get ∧ request.method ≠ .head ∧
      HandleRequest request = .ok (invalid_method_response request)) := by
  have hallow : (string_response Status.method_not_allowed "Invalid method".toList
      request.version request.keep_alive).set "Allow".toList "GET, HEAD".toList =
      .ok (invalid_method_response request) := by
    unfold Response.set
    have h := set_allow_fields ContentType.TEXT_HTML
      (Nat.toDigits 10 "Invalid method".toList.length) request.version request.keep_alive
    have hf : (string_response Status.method_not_allowed "Invalid method".toList
        request.version request.keep_alive).fields =
        [(field.content_type, ContentType.TEXT_HTML),
          (field.content_length, Nat.toDigits 10 "Invalid method".toList.length)] ++
        connection_field request.version request.keep_alive := rfl
    rw [hf, h]
    rfl
  rcases request with ⟨method, target, version, fields, body⟩
  cases method <;> cases target <;>
    simp [HandleRequest, substr, MakeStringResponse_default] <;>
    exact hallow

theorem invalid_method_response_fields (request : Request) :
    (invalid_method_response request).fields =
      [(field.content_type, ContentType.TEXT_HTML),
       (field.content_length, Nat.toDigits 10 "Invalid method".toList.length)] ++
      connection_field request.version request.keep_alive ++
      [("Allow".toList, "GET, HEAD".toList)] := rfl

theorem invalid_method_response_keep_alive (request : Request) :
    (invalid_method_response request).keep_alive = request.keep_alive := by
  have hv : (invalid_method_response request).version = request.version := rfl
  rw [Response.keep_alive, invalid_method_response_fields, hv]
  have h4 := iequals_content_type_connection
  have h5 := iequals_content_length_connection
  have h6 : iequals field.connection field.connection = true := by decide
  have h7 : token_list_exists "keep-alive".toList "keep-alive".toList = true := by decide
  have h8 : token_list_exists "close".toList "close".toList = true := by decide
  have h9 : iequals "Allow".toList field.connection = false := by decide
  simp only [String.toList] at h7 h8 h9
  by_cases h : request.version < 11 <;> cases request.keep_alive <;>
    simp [get_keep_alive_impl, connection_field, Fields.find, List.find?_cons, h, h4, h5, h6,
      h7, h8, h9]

theorem invalid_method_response_count (request : Request) :
    (invalid_method_response request).fields.count field.content_length = 1 := by
  rw [invalid_method_response_fields]
  have h2 : iequals field.content_type field.content_length = false := by decide
  have h3 : iequals field.content_length field.content_length = true := by decide
  have h4 : iequals field.connection field.content_length = false := by decide
  have h5 : iequals "Allow".toList field.content_length = false := by decide
  simp only [String.toList] at h5
  by_cases h : request.version < 11 <;> cases request.keep_alive <;>
    simp [Fields.count, connection_field, List.countP_cons, h, h2, h3, h4, h5]

/-- Every response of `HandleRequest` carries the request's version and
keep-alive flag, and asks for the end of the connection exactly when the
request is not keep-alive. -/
theorem HandleRequest_ok_flags (request : Request) (response : Response)
    (h : HandleRequest request = .ok response) :
    response.version = request.version ∧ response.keep_alive = request.keep_alive ∧
      response.need_eof = !request.keep_alive := by
  rcases HandleRequest_cases request with ⟨_, _, h1⟩ | ⟨_, _, h1⟩ | ⟨_, h1⟩ | ⟨_, _, h1⟩
  · rw [h1] at h; cases h
  · rw [h1] at h; cases h
    exact ⟨rfl, built_response_keep_alive _ _ _ _ _ _, built_response_need_eof _ _ _ _ _ _⟩
  · rw [h1] at h; cases h
    exact ⟨rfl, built_response_keep_alive _ _ _ _ _ _, built_response_need_eof _ _ _ _ _ _⟩
  · rw [h1] at h; cases h
    refine ⟨rfl, invalid_method_response_keep_alive _, ?_⟩
    rw [need_eof_of_count _ (invalid_method_response_count _),
      invalid_method_response_keep_alive]

/-- Looking up the Allow field of the 405 response. -/
theorem find_allow_built_fields (content_type content_length value : Str) (version : Nat)
    (keep_alive : Bool) :
    Fields.find ([(field.content_type, content_type), (field.content_length, content_length)] ++
        connection_field version keep_alive ++ [("Allow".toList, value)]) "Allow".toList =
      some value := by
  have h1 : iequals field.content_type "Allow".toList = false := by decide
  have h2 : iequals field.content_length "Allow".toList = false := by decide
  have h3 : iequals field.connection "Allow".toList = false := by decide
  have h4 : iequals "Allow".toList "Allow".toList = true := by decide
  simp only [String.toList] at h1 h2 h3 h4
  by_cases h : version < 11 <;> cases keep_alive <;>
    simp [Fields.find, connection_field, List.find?_cons, h, h1, h2, h3, h4]

theorem count_allow_built_fields (content_type content_length value : Str) (version : Nat)
    (keep_alive : Bool) :
    Fields.count ([(field.content_type, content_type), (field.content_length, content_length)] ++
        connection_field version keep_alive ++ [("Allow".toList, value)]) "Allow".toList = 1 := by
  have h1 : iequals field.content_type "Allow".toList = false := by decide
  have h2 : iequals field.content_length "Allow".toList = false := by decide
  have h3 : iequals field.connection "Allow".toList = false := by decide
  have h4 : iequals "Allow".toList "Allow".toList = true := by decide
  simp only [String.toList] at h1 h2 h3 h4
  by_cases h : version < 11 <;> cases keep_alive <;>
    simp [Fields.count, connection_field, List.countP_cons, h, h1, h2, h3, h4]

/-- The first two fields of a built response are found under their names. -/
theorem find_first_two (content_type content_length : Str) (rest : Fields) :
    Fields.find ([(field.content_type, content_type), (field.content_length, content_length)] ++
        rest) field.content_type = some content_type ∧
    Fields.find ([(field.content_type, content_type), (field.content_length, content_length)] ++
        rest) field.content_length = some content_length := by
  have h1 : iequals field.content_type field.content_type = true := by decide
  have h2 : iequals field.content_type field.content_length = false := by decide
  have h3 : iequals field.content_length field.content_length = true := by decide
  constructor
  · simp [Fields.find, List.find?_cons, h1]
  · simp [Fields.find, List.find?_cons, h2, h3]

/-- A successful `http::read` that is not the end of the stream yields its request. -/
theorem ReadRequest_of_not_failed (read : ReadResult) (h : read.ec.failed = false) :
    ReadRequest read = .ok (some read.request) := by
  have hv : read.ec.value = 0 := by simpa [ErrorCode.failed] using h
  simp [ReadRequest, ErrorCode.is_end_of_stream, ErrorCode.failed, hv]

/-- The two kinds of request that C10 names are not keep-alive. -/
theorem keep_alive_false_of_close (request : Request)
    (h : connection_close request = true ∨ http10_without_keep_alive request = true) :
    request.keep_alive = false := by
  unfold Request.keep_alive get_keep_alive_impl
  rcases h with h | h
  · unfold connection_close at h
    cases hf : request.fields.find field.connection with
    | none => simp [hf] at h
    | some value =>
      simp only [hf, Bool.and_eq_true, Bool.not_eq_true', Bool.or_eq_true,
        decide_eq_true_eq, String.toList] at h
      by_cases hv : request.version < 11
      · rcases h.2 with h2 | h2
        · omega
        · simp [hv, h2]
      · simp [hv, h.1]
  · unfold http10_without_keep_alive at h
    simp only [Bool.and_eq_true, beq_iff_eq, List.all_eq_true, Bool.not_eq_true',
      Bool.and_eq_false_iff, String.toList] at h
    obtain ⟨hv, hall⟩ := h
    cases hf : request.fields.find field.connection with
    | none => simp [hv]
    | some value =>
      unfold Fields.find at hf
      cases hfind : List.find? (fun f => iequals f.1 field.connection) request.fields with
      | none => simp [hfind] at hf
      | some f =>
        simp only [hfind, Option.map_some', Option.some.injEq] at hf
        have hname := List.find?_some hfind
        have hmem := List.mem_of_find?_eq_some hfind
        rcases hall f hmem with h1 | h1
        · simp [h1] at hname
        · simp [hv, ← hf, h1]

/-- An effect list that ends in effects other than `a` and `b` is split
around `a :: b` inside its front part. -/
theorem split_before_suffix (front suffix before after : List Event) (a b : Event)
    (ha : a ∉ suffix) (hb : b ∉ suffix)
    (h : front ++ suffix = before ++ a :: b :: after) :
    ∃ rest, front = before ++ a :: b :: rest ∧ after = rest ++ suffix := by
  rcases List.append_eq_append_iff.mp h with ⟨mid, _, hs⟩ | ⟨mid, hf, hs⟩
  · exact absurd (by rw [hs]; simp) ha
  · match mid, hf, hs with
    | [], _, hs =>
      simp only [List.nil_append] at hs
      exact absurd (by rw [← hs]; simp) ha
    | [x], _, hs =>
      simp only [List.singleton_append, List.cons.injEq] at hs
      exact absurd (by rw [← hs.2]; simp) hb
    | x :: y :: rest, hf, hs =>
      simp only [List.cons_append, List.cons.injEq] at hs
      obtain ⟨hx, hy, hrest⟩ := hs
      subst hx hy
      exact ⟨rest, hf, hrest⟩

/-- In the loop run with `HandleRequest`, the written response of a request
that is not keep-alive is the last effect, and the loop has ended. -/
theorem serve_loop_write_last (socket : Socket) (request : Request) (response : Response)
    (hka : request.keep_alive = false) :
    ∀ (fuel i : Nat) (before after : List Event),
      (serve_loop socket HandleRequest fuel i).1 =
        before ++ .cout request :: .write response :: after →
      after = [] ∧ (serve_loop socket HandleRequest fuel i).2 = .finished := by
  intro fuel
  induction fuel with
  | zero =>
    intro i before after h
    simp [serve_loop] at h
  | succ fuel ih =>
    intro i before after h
    unfold serve_loop at h ⊢
    cases hread : ReadRequest (socket.read i) with
    | error e =>
      simp only [hread] at h
      match before, h with
      | [], h => simp at h
      | [_], h => simp at h
      | _ :: _ :: _, h => simp at h
    | ok opt =>
      cases opt with
      | none =>
        simp only [hread] at h
        match before, h with
        | [], h => simp at h
        | [_], h => simp at h
        | _ :: _ :: _, h => simp at h
      | some rq =>
        simp only [hread] at h ⊢
        cases hresp : HandleRequest rq with
        | error e =>
          simp only [hresp] at h
          match before, h with
          | [], h => simp at h
          | [_], h => simp at h
          | [_, _], h => simp at h
          | _ :: _ :: _ :: _, h => simp at h
        | ok rs =>
          simp only [hresp] at h ⊢
          cases hw : socket.write i with
          | some ec =>
            simp only [hw] at h
            match before, h with
            | [], h => simp at h
            | [_], h => simp at h
            | [_, _], h => simp at h
            | [_, _, _], h => simp at h
            | _ :: _ :: _ :: _ :: _, h => simp at h
          | none =>
            simp only [hw] at h ⊢
            have hflags := HandleRequest_ok_flags rq rs hresp
            cases hn : rs.need_eof with
            | true =>
              simp only [hn, ↓reduceIte] at h ⊢
              match before, h with
              | [], h => simp at h
              | [_], h =>
                simp only [List.singleton_append, List.cons.injEq] at h
                exact ⟨h.2.2.2.symm, trivial⟩
              | [_, _], h => simp at h
              | [_, _, _], h => simp at h
              | _ :: _ :: _ :: _ :: _, h => simp at h
            | false =>
              simp only [hn, ↓reduceIte, Bool.false_eq_true] at h ⊢
              match before, h with
              | [], h => simp at h
              | [_], h =>
                simp only [List.singleton_append, List.cons.injEq, Event.cout.injEq,
                  Event.write.injEq] at h
                obtain ⟨_, hrq, _, _⟩ := h
                subst hrq
                rw [hflags.2.2, hka] at hn
                cases hn
              | [_, _], h => simp at h
              | _ :: _ :: _ :: rest, h =>
                simp only [List.cons_append, List.cons.injEq] at h
                exact ih (i + 1) rest after h.2.2.2

/-- The loop in normal form: rounds that served a request each, then the
effects of the iteration in which the loop stops.  The `j`-th round holds the
request of the `j`-th read from the start and the handler's response to it. -/
theorem serve_loop_normal_form (socket : Socket)
    (handle_request : Request → Except Exn Response) :
    ∀ (fuel s : Nat), ∃ (pairs : List (Request × Response)) (stop : List Event),
      (serve_loop socket handle_request fuel s).1 = rounds_of pairs ++ stop ∧
      pairs.length ≤ fuel ∧
      (∀ (j : Nat) (request : Request) (response : Response),
        pairs[j]? = some (request, response) →
          ReadRequest (socket.read (s + j)) = .ok (some request) ∧
          handle_request request = .ok response ∧ socket.write (s + j) = none) ∧
      loop_stop socket handle_request (s + pairs.length) stop
        (serve_loop socket handle_request fuel s).2 := by
  intro fuel
  induction fuel with
  | zero =>
    intro s
    exact ⟨[], [], rfl, Nat.le_refl _, by simp, Or.inl ⟨rfl, rfl⟩⟩
  | succ fuel ih =>
    intro s
    unfold serve_loop
    cases hread : ReadRequest (socket.read s) with
    | error e =>
      exact ⟨[], [.read], rfl, Nat.zero_le _, by simp,
        Or.inr (Or.inr (Or.inr (Or.inl ⟨e, rfl, rfl, hread⟩)))⟩
    | ok opt =>
      cases opt with
      | none =>
        exact ⟨[], [.read], rfl, Nat.zero_le _, by simp,
          Or.inr (Or.inr (Or.inl ⟨rfl, rfl, hread⟩))⟩
      | some rq =>
        simp only []
        cases hresp : handle_request rq with
        | error e =>
          exact ⟨[], [.read, .cout rq], rfl, Nat.zero_le _, by simp,
            Or.inr (Or.inr (Or.inr (Or.inr (Or.inl ⟨rq, e, rfl, rfl, hread, hresp⟩))))⟩
        | ok rs =>
          simp only []
          cases hw : socket.write s with
          | some ec =>
            exact ⟨[], [.read, .cout rq, .write_failed rs], rfl, Nat.zero_le _, by simp,
              Or.inr (Or.inr (Or.inr (Or.inr (Or.inr ⟨rq, rs, ec, rfl, rfl, hread, hresp, hw⟩))))⟩
          | none =>
            simp only []
            cases hn : rs.need_eof with
            | true =>
              simp only [if_true]
              refine ⟨[(rq, rs)], [], by simp [rounds_of], by simp, ?_,
                Or.inr (Or.inl ⟨rfl, by simp, by simp⟩)⟩
              intro j request response hj
              match j, hj with
              | 0, hj =>
                simp only [List.getElem?_cons_zero, Option.some.injEq, Prod.mk.injEq] at hj
                obtain ⟨h1, h2⟩ := hj
                subst h1 h2
                exact ⟨hread, hresp, hw⟩
              | j + 1, hj => simp at hj
            | false =>
              simp only [Bool.false_eq_true, if_false]
              obtain ⟨pairs, stop, hev, hlen, hidx, hstop⟩ := ih (s + 1)
              refine ⟨(rq, rs) :: pairs, stop, ?_, ?_, ?_, ?_⟩
              · simp [rounds_of, hev]
              · simpa using hlen
              · intro j request response hj
                match j, hj with
                | 0, hj =>
                  simp only [List.getElem?_cons_zero, Option.some.injEq, Prod.mk.injEq] at hj
                  obtain ⟨h1, h2⟩ := hj
                  subst h1 h2
                  exact ⟨hread, hresp, hw⟩
                | j + 1, hj =>
                  simp only [List.getElem?_cons_succ] at hj
                  have := hidx j request response hj
                  rwa [Nat.add_assoc, Nat.add_comm 1 j] at this
              · have hk : s + ((rq, rs) :: pairs).length = s + 1 + pairs.length := by
                  simp only [List.length_cons]; omega
                rw [hk]
                simpa using hstop

/-- What it means that an iteration goes round. -/
theorem goes_round_iff (socket : Socket) (handle_request : Request → Except Exn Response)
    (k : Nat) :
    goes_round socket handle_request k = true ↔
      ∃ request response, ReadRequest (socket.read k) = .ok (some request) ∧
        handle_request request = .ok response ∧ socket.write k = none ∧
        response.need_eof = false := by
  unfold goes_round
  constructor
  · intro h
    cases hread : ReadRequest (socket.read k) with
    | error e => simp [hread] at h
    | ok opt =>
      cases opt with
      | none => simp [hread] at h
      | some rq =>
        simp only [hread] at h
        cases hresp : handle_request rq with
        | error e => simp [hresp] at h
        | ok rs =>
          simp only [hresp, Bool.and_eq_true, Option.isNone_iff_eq_none,
            Bool.not_eq_true'] at h
          exact ⟨rq, rs, rfl, hresp, h.1, h.2⟩
  · rintro ⟨rq, rs, hread, hresp, hw, hn⟩
    simp [hread, hresp, hw, hn]

/-- One iteration that goes round, then the rest of the loop. -/
theorem serve_loop_succ_round (socket : Socket)
    (handle_request : Request → Except Exn Response) (fuel i : Nat)
    (request : Request) (response : Response)
    (hread : ReadRequest (socket.read i) = .ok (some request))
    (hresp : handle_request request = .ok response)
    (hw : socket.write i = none) (hn : response.need_eof = false) :
    serve_loop socket handle_request (fuel + 1) i =
      (.read :: .cout request :: .write response ::
        (serve_loop socket handle_request fuel (i + 1)).1,
       (serve_loop socket handle_request fuel (i + 1)).2) := by
  rw [serve_loop]
  simp [hread, hresp, hw, hn]

/-- While the loop is running, every iteration so far has gone round. -/
theorem serve_loop_running (socket : Socket)
    (handle_request : Request → Except Exn Response) :
    ∀ (fuel s : Nat), (serve_loop socket handle_request fuel s).2 = .running →
      ∀ j, j < fuel → goes_round socket handle_request (s + j) = true := by
  intro fuel
  induction fuel with
  | zero => intro s _ j hj; omega
  | succ fuel ih =>
    intro s h j hj
    unfold serve_loop at h
    cases hread : ReadRequest (socket.read s) with
    | error e => simp [hread] at h
    | ok opt =>
      cases opt with
      | none => simp [hread] at h
      | some rq =>
        simp only [hread] at h
        cases hresp : handle_request rq with
        | error e => simp [hresp] at h
        | ok rs =>
          simp only [hresp] at h
          cases hw : socket.write s with
          | some ec => simp [hw] at h
          | none =>
            simp only [hw] at h
            cases hn : rs.need_eof with
            | true => simp [hn] at h
            | false =>
              simp only [hn, Bool.false_eq_true, if_false] at h
              match j, hj with
              | 0, _ =>
                exact (goes_round_iff socket handle_request (s + 0)).mpr
                  ⟨rq, rs, hread, hresp, hw, hn⟩
              | j + 1, hj =>
                have := ih (s + 1) h j (by omega)
                rwa [Nat.add_assoc, Nat.add_comm 1 j] at this

/-- When the first `n` iterations from `s` go round, the loop serves `n`
requests and goes on with the iteration `s + n`. -/
theorem serve_loop_reach (socket : Socket)
    (handle_request : Request → Except Exn Response) :
    ∀ (n s : Nat), (∀ j, j < n → goes_round socket handle_request (s + j) = true) →
      ∃ pairs : List (Request × Response), pairs.length = n ∧
        (∀ (j : Nat) (request : Request) (response : Response),
          pairs[j]? = some (request, response) →
            ReadRequest (socket.read (s + j)) = .ok (some request) ∧
            handle_request request = .ok response ∧ socket.write (s + j) = none ∧
            response.need_eof = false) ∧
        ∀ fuel, serve_loop socket handle_request (n + fuel) s =
          (rounds_of pairs ++ (serve_loop socket handle_request fuel (s + n)).1,
           (serve_loop socket handle_request fuel (s + n)).2) := by
  intro n
  induction n with
  | zero =>
    intro s _
    exact ⟨[], rfl, by simp, fun fuel => by simp [rounds_of]⟩
  | succ n ih =>
    intro s h
    obtain ⟨rq, rs, hread, hresp, hw, hn⟩ :=
      (goes_round_iff socket handle_request s).mp (by simpa using h 0 (Nat.succ_pos n))
    obtain ⟨pairs, hlen, hidx, hrun⟩ := ih (s + 1) (fun j hj => by
      have := h (j + 1) (by omega)
      rwa [Nat.add_comm j 1, ← Nat.add_assoc] at this)
    refine ⟨(rq, rs) :: pairs, by simp [hlen], ?_, ?_⟩
    · intro j request response hj
      match j, hj with
      | 0, hj =>
        simp only [List.getElem?_cons_zero, Option.some.injEq, Prod.mk.injEq] at hj
        obtain ⟨h1, h2⟩ := hj
        subst h1 h2
        exact ⟨hread, hresp, hw, hn⟩
      | j + 1, hj =>
        simp only [List.getElem?_cons_succ] at hj
        have := hidx j request response hj
        rwa [Nat.add_assoc, Nat.add_comm 1 j] at this
    · intro fuel
      have e1 : n + 1 + fuel = (n + fuel) + 1 := by omega
      have e2 : s + (n + 1) = s + 1 + n := by omega
      rw [e1, serve_loop_succ_round socket handle_request (n + fuel) s rq rs hread hresp hw hn,
        hrun fuel, e2]
      simp [rounds_of]

/-- An HTTP/1.1 request without `Connection: close` is keep-alive. -/
theorem keep_alive_of_http11_without_close (request : Request)
    (h : http11_without_close request = true) : request.keep_alive = true := by
  unfold http11_without_close at h
  simp only [Bool.and_eq_true, beq_iff_eq, List.all_eq_true, Bool.not_eq_true',
    Bool.and_eq_false_iff, String.toList] at h
  obtain ⟨hv, hall⟩ := h
  unfold Request.keep_alive get_keep_alive_impl
  cases hf : request.fields.find field.connection with
  | none => simp [hv]
  | some value =>
    unfold Fields.find at hf
    cases hfind : List.find? (fun f => iequals f.1 field.connection) request.fields with
    | none => simp [hfind] at hf
    | some f =>
      simp only [hfind, Option.map_some', Option.some.injEq] at hf
      have hname := List.find?_some hfind
      have hmem := List.mem_of_find?_eq_some hfind
      rcases hall f hmem with h1 | h1
      · simp [h1] at hname
      · simp [hv, ← hf, h1]

/-- `HandleRequest` returns a response unless the request is a GET request with
an empty target. -/
theorem HandleRequest_ok_of_target (request : Request)
    (h : request.method = .get → request.target ≠ []) :
    ∃ response, HandleRequest request = .ok response := by
  rcases HandleRequest_cases request with ⟨h1, h2, _⟩ | ⟨_, _, h3⟩ | ⟨_, h3⟩ | ⟨_, _, h3⟩
  · exact absurd h2 (h h1)
  · exact ⟨_, h3⟩
  · exact ⟨_, h3⟩
  · exact ⟨_, h3⟩

/-- An iteration whose read, handler call and write succeed starts the effects
of the loop with the read, the dump and the write. -/
theorem serve_loop_succ_written (socket : Socket)
    (handle_request : Request → Except Exn Response) (fuel i : Nat)
    (request : Request) (response : Response)
    (hread : ReadRequest (socket.read i) = .ok (some request))
    (hresp : handle_request request = .ok response)
    (hw : socket.write i = none) :
    ∃ rest, (serve_loop socket handle_request (fuel + 1) i).1 =
      .read :: .cout request :: .write response :: rest := by
  rw [serve_loop]
  cases hn : response.need_eof with
  | true => exact ⟨[], by simp [hread, hresp, hw, hn]⟩
  | false => exact ⟨_, by simp [hread, hresp, hw, hn]; rfl⟩

/-- The effects of `HandleConnection` are those of the loop, followed by those
of the catch block and the shutdown. -/
theorem HandleConnection_events (socket : Socket)
    (handle_request : Request → Except Exn Response) (fuel : Nat) :
    ∃ suffix, (HandleConnection socket handle_request fuel).1 =
        (serve_loop socket handle_request fuel 0).1 ++ suffix ∧
      (suffix = [] ∨ suffix = [.shutdown] ∨ ∃ e, suffix = [.cerr e, .shutdown]) := by
  unfold HandleConnection
  rcases hloop : serve_loop socket handle_request fuel 0 with ⟨events, ending⟩
  cases ending with
  | running => exact ⟨[], by simp, Or.inl rfl⟩
  | finished => exact ⟨[.shutdown], rfl, Or.inr (Or.inl rfl)⟩
  | thrown e =>
    cases hstd : e.is_std_exception with
    | true => exact ⟨[.cerr e, .shutdown], by simp [hstd], Or.inr (Or.inr ⟨e, rfl⟩)⟩
    | false => exact ⟨[], by simp [hstd], Or.inl rfl⟩

/-- As `split_before_suffix`, around a single effect. -/
theorem split_before_suffix_one (front suffix before after : List Event) (a : Event)
    (ha : a ∉ suffix) (h : front ++ suffix = before ++ a :: after) :
    ∃ rest, front = before ++ a :: rest ∧ after = rest ++ suffix := by
  rcases List.append_eq_append_iff.mp h with ⟨mid, _, hs⟩ | ⟨mid, hf, hs⟩
  · exact absurd (by rw [hs]; simp) ha
  · match mid, hf, hs with
    | [], _, hs =>
      simp only [List.nil_append] at hs
      exact absurd (by rw [← hs]; simp) ha
    | x :: rest, hf, hs =>
      simp only [List.cons_append, List.cons.injEq] at hs
      obtain ⟨hx, hrest⟩ := hs
      subst hx
      exact ⟨rest, hf, hrest⟩

/-- With fuel left, the loop starts with a read. -/
theorem serve_loop_head (socket : Socket) (handle_request : Request → Except Exn Response)
    (fuel s : Nat) :
    ∃ rest, (serve_loop socket handle_request (fuel + 1) s).1 = .read :: rest := by
  rw [serve_loop]
  cases hread : ReadRequest (socket.read s) with
  | error e => exact ⟨[], rfl⟩
  | ok opt =>
    cases opt with
    | none => exact ⟨[], rfl⟩
    | some rq =>
      simp only []
      cases hresp : handle_request rq with
      | error e => exact ⟨_, rfl⟩
      | ok rs =>
        simp only []
        cases hw : socket.write s with
        | some ec => exact ⟨_, rfl⟩
        | none =>
          simp only []
          cases hn : rs.need_eof with
          | true => exact ⟨_, rfl⟩
          | false => exact ⟨_, rfl⟩

/-- What follows a written response in the loop: nothing when the response
needs the end of the connection (the loop has ended), a read otherwise (at the
latest with one more unit of fuel). -/
theorem serve_loop_after_write (socket : Socket)
    (handle_request : Request → Except Exn Response) (response : Response) :
    ∀ (fuel s : Nat) (before after : List Event),
      (serve_loop socket handle_request fuel s).1 = before ++ .write response :: after →
      (response.need_eof = true →
        after = [] ∧ (serve_loop socket handle_request fuel s).2 = .finished) ∧
      (response.need_eof = false →
        ((after = [] ∧ (serve_loop socket handle_request fuel s).2 = .running) ∨
          ∃ rest, after = .read :: rest) ∧
        ∃ rest, (serve_loop socket handle_request (fuel + 1) s).1 =
          before ++ .write response :: .read :: rest) := by
  intro fuel
  induction fuel with
  | zero =>
    intro s before after h
    simp [serve_loop] at h
  | succ fuel ih =>
    intro s before after h
    cases hread : ReadRequest (socket.read s) with
    | error e =>
      rw [serve_loop] at h
      simp only [hread] at h
      match before, h with
      | [], h => simp at h
      | [_], h => simp at h
      | _ :: _ :: _, h => simp at h
    | ok opt =>
      cases opt with
      | none =>
        rw [serve_loop] at h
        simp only [hread] at h
        match before, h with
        | [], h => simp at h
        | [_], h => simp at h
        | _ :: _ :: _, h => simp at h
      | some rq =>
        cases hresp : handle_request rq with
        | error e =>
          rw [serve_loop] at h
          simp only [hread, hresp] at h
          match before, h with
          | [], h => simp at h
          | [_], h => simp at h
          | [_, _], h => simp at h
          | _ :: _ :: _ :: _, h => simp at h
        | ok rs =>
          cases hw : socket.write s with
          | some ec =>
            rw [serve_loop] at h
            simp only [hread, hresp, hw] at h
            match before, h with
            | [], h => simp at h
            | [_], h => simp at h
            | [_, _], h => simp at h
            | [_, _, _], h => simp at h
            | _ :: _ :: _ :: _ :: _, h => simp at h
          | none =>
            cases hn : rs.need_eof with
            | true =>
              have hrun : serve_loop socket handle_request (fuel + 1) s =
                  ([.read, .cout rq, .write rs], .finished) := by
                rw [serve_loop]; simp [hread, hresp, hw, hn]
              rw [hrun] at h ⊢
              match before, h with
              | [], h => simp at h
              | [_], h => simp at h
              | [_, _], h =>
                simp only [List.cons_append, List.nil_append, List.cons.injEq,
                  Event.write.injEq] at h
                obtain ⟨_, _, hrs, hafter⟩ := h
                subst hrs
                exact ⟨fun _ => ⟨hafter.symm, rfl⟩, fun hfalse => (by rw [hn] at hfalse; cases hfalse)⟩
              | [_, _, _], h => simp at h
              | _ :: _ :: _ :: _ :: _, h => simp at h
            | false =>
              have hrun := serve_loop_succ_round socket handle_request fuel s rq rs
                hread hresp hw hn
              have hrun1 := serve_loop_succ_round socket handle_request (fuel + 1) s rq rs
                hread hresp hw hn
              rw [hrun] at h ⊢
              rw [hrun1]
              match before, h with
              | [], h => simp at h
              | [_], h => simp at h
              | [_, _], h =>
                simp only [List.cons_append, List.nil_append, List.cons.injEq,
                  Event.write.injEq] at h
                obtain ⟨h1, h2, hrs, hafter⟩ := h
                subst hrs h1 h2
                refine ⟨fun htrue => (by rw [hn] at htrue; cases htrue), fun _ => ⟨?_, ?_⟩⟩
                · cases fuel with
                  | zero =>
                    left
                    exact ⟨by rw [← hafter]; rfl, rfl⟩
                  | succ fuel =>
                    right
                    obtain ⟨rest, hrest⟩ := serve_loop_head socket handle_request fuel (s + 1)
                    exact ⟨rest, by rw [← hafter, hrest]⟩
                · obtain ⟨rest, hrest⟩ := serve_loop_head socket handle_request fuel (s + 1)
                  exact ⟨rest, by simp [hrest]⟩
              | _ :: _ :: _ :: rest, h =>
                simp only [List.cons_append, List.cons.injEq] at h
                obtain ⟨h1, h2, h3, hrest⟩ := h
                subst h1 h2 h3
                have hih := ih (s + 1) rest after hrest
                refine ⟨fun htrue => hih.1 htrue, fun hfalse => ⟨(hih.2 hfalse).1, ?_⟩⟩
                obtain ⟨more, hmore⟩ := (hih.2 hfalse).2
                exact ⟨more, by simp [hmore]⟩

/-- An error of `ReadRequest` is a `std::runtime_error` with the text of the
error code, and the error code is not the end of the stream. -/
theorem ReadRequest_error (read : ReadResult) (e : Exn) (h : ReadRequest read = .error e) :
    e = .runtime_error ("Failed to read request: ".toList ++ read.ec.message) ∧
      read.ec.is_end_of_stream = false ∧ read.ec.failed = true := by
  unfold ReadRequest at h
  cases heos : read.ec.is_end_of_stream with
  | true => simp [heos] at h
  | false =>
    cases hf : read.ec.failed with
    | true =>
      simp only [heos, hf, if_true, Bool.false_eq_true, if_false, Except.error.injEq] at h
      exact ⟨h.symm, rfl, rfl⟩
    | false => simp [heos, hf] at h

/-- A call of `HandleConnection` in normal form: the served requests with their
responses, then the effects with which the call ends. -/
theorem HandleConnection_shape (socket : Socket)
    (handle_request : Request → Except Exn Response) (fuel : Nat) :
    ∃ (pairs : List (Request × Response)) (tail : List Event),
      (HandleConnection socket handle_request fuel).1 = rounds_of pairs ++ tail ∧
      pairs.length ≤ fuel ∧
      (∀ (j : Nat) (request : Request) (response : Response),
        pairs[j]? = some (request, response) →
          ReadRequest (socket.read j) = .ok (some request) ∧
          handle_request request = .ok response ∧ socket.write j = none) ∧
      connection_stop socket handle_request pairs.length tail
        (HandleConnection socket handle_request fuel).2 := by
  obtain ⟨pairs, stop, hev, hlen, hidx, hstop⟩ :=
    serve_loop_normal_form socket handle_request fuel 0
  simp only [Nat.zero_add] at hidx hstop
  unfold HandleConnection
  rcases hloop : serve_loop socket handle_request fuel 0 with ⟨events, ending⟩
  rw [hloop] at hev hstop
  simp only at hev hstop
  subst hev
  rcases hstop with ⟨h1, h2⟩ | ⟨h1, h2, h3⟩ | ⟨h1, h2, h3⟩ | ⟨e, h1, h2, h3⟩ |
    ⟨rq, e, h1, h2, h3, h4⟩ | ⟨rq, rs, ec, h1, h2, h3, h4, h5⟩
  · subst h1 h2
    exact ⟨pairs, [], rfl, hlen, hidx, Or.inl ⟨rfl, rfl⟩⟩
  · subst h1 h2
    exact ⟨pairs, [.shutdown], by simp, hlen, hidx, Or.inr (Or.inl ⟨rfl, rfl, h3⟩)⟩
  · subst h1 h2
    exact ⟨pairs, [.read, .shutdown], by simp, hlen, hidx,
      Or.inr (Or.inr (Or.inl ⟨rfl, rfl, h3⟩))⟩
  · subst h1 h2
    have hstd : e.is_std_exception = true := by
      rw [(ReadRequest_error _ e h3).1]; rfl
    exact ⟨pairs, [.read, .cerr e, .shutdown], by simp [hstd], hlen, hidx,
      Or.inr (Or.inr (Or.inr (Or.inl ⟨e, rfl, by simp [hstd], h3⟩)))⟩
  · subst h1 h2
    cases hstd : e.is_std_exception with
    | true =>
      exact ⟨pairs, [.read, .cout rq, .cerr e, .shutdown], by simp [hstd], hlen, hidx,
        Or.inr (Or.inr (Or.inr (Or.inr (Or.inl
          ⟨rq, e, rfl, by simp [hstd], h3, h4, hstd⟩))))⟩
    | false =>
      exact ⟨pairs, [.read, .cout rq], by simp [hstd], hlen, hidx,
        Or.inr (Or.inr (Or.inr (Or.inr (Or.inr (Or.inl
          ⟨rq, e, rfl, by simp [hstd], h3, h4, hstd⟩)))))⟩
  · subst h1 h2
    exact ⟨pairs, [.read, .cout rq, .write_failed rs, .cerr (.system_error ec), .shutdown],
      by simp [Exn.is_std_exception], hlen, hidx,
      Or.inr (Or.inr (Or.inr (Or.inr (Or.inr (Or.inr
        ⟨rq, rs, ec, rfl, by simp [Exn.is_std_exception], h3, h4, h5⟩)))))⟩

/-- The effects of served requests are reads, dumps and writes. -/
theorem mem_rounds_of (pairs : List (Request × Response)) (ev : Event)
    (h : ev ∈ rounds_of pairs) :
    ev = .read ∨ (∃ request, ev = .cout request) ∨ ∃ response, ev = .write response := by
  induction pairs with
  | nil => simp [rounds_of] at h
  | cons p pairs ih =>
    obtain ⟨rq, rs⟩ := p
    simp only [rounds_of, List.mem_cons] at h
    rcases h with h | h | h | h
    · exact Or.inl h
    · exact Or.inr (Or.inl ⟨rq, h⟩)
    · exact Or.inr (Or.inr ⟨rs, h⟩)
    · exact ih h

/-- While `HandleConnection` is running, so is its loop. -/
theorem serve_loop_running_of_HandleConnection (socket : Socket)
    (handle_request : Request → Except Exn Response) (fuel : Nat)
    (h : (HandleConnection socket handle_request fuel).2 = .running) :
    (serve_loop socket handle_request fuel 0).2 = .running := by
  unfold HandleConnection at h
  rcases hloop : serve_loop socket handle_request fuel 0 with ⟨events, ending⟩
  rw [hloop] at h
  cases ending with
  | running => rfl
  | finished => simp at h
  | thrown e =>
    cases hstd : e.is_std_exception <;> simp [hstd] at h

theorem alternating_length : ∀ n, (alternating n).length = n
  | 0 => rfl
  | 1 => rfl
  | n + 2 => by simp [alternating, alternating_length n]

/-- The reads and writes of served requests alternate, and so does what follows
them when it does. -/
theorem read_write_ops_rounds (tail : List Event) (m : Nat)
    (h : read_write_ops tail = alternating m) :
    ∀ pairs : List (Request × Response),
      read_write_ops (rounds_of pairs ++ tail) = alternating (2 * pairs.length + m) := by
  intro pairs
  induction pairs with
  | nil => simpa [rounds_of] using h
  | cons p pairs ih =>
    obtain ⟨rq, rs⟩ := p
    have e : 2 * ((rq, rs) :: pairs).length + m = (2 * pairs.length + m) + 2 := by
      simp only [List.length_cons]; omega
    rw [e]
    simp [rounds_of, read_write_ops, alternating, ih]

/-- Counting in the effects of served requests. -/
theorem countP_rounds (tail : List Event) :
    ∀ pairs : List (Request × Response),
      List.countP Event.is_read (rounds_of pairs ++ tail) =
        pairs.length + List.countP Event.is_read tail ∧
      List.countP Event.is_request (rounds_of pairs ++ tail) =
        pairs.length + List.countP Event.is_request tail ∧
      List.countP Event.is_written (rounds_of pairs ++ tail) =
        pairs.length + List.countP Event.is_written tail := by
  intro pairs
  induction pairs with
  | nil => simp [rounds_of]
  | cons p pairs ih =>
    obtain ⟨rq, rs⟩ := p
    obtain ⟨h1, h2, h3⟩ := ih
    simp only [rounds_of, List.cons_append, List.length_cons]
    refine ⟨?_, ?_, ?_⟩
    · simp [List.countP_cons, Event.is_read, h1]; omega
    · simp [List.countP_cons, Event.is_request, h2]; omega
    · simp [List.countP_cons, Event.is_written, h3]; omega

/-- A string that neither starts nor ends with a space or a tab is its own trim. -/
theorem trim_of_no_blank (s : Str)
    (hhead : ∀ c, s.head? = some c → c ≠ ' ' ∧ c ≠ '\t')
    (hlast : ∀ c, s.getLast? = some c → c ≠ ' ' ∧ c ≠ '\t') : trim s = s := by
  have hskip : ∀ t : Str, (∀ c, t.head? = some c → c ≠ ' ' ∧ c ≠ '\t') → skip_ows t = t := by
    intro t ht
    cases t with
    | nil => rfl
    | cons c cs =>
      have := ht c rfl
      simp [skip_ows, this.1, this.2]
  unfold trim
  rw [hskip s hhead, hskip s.reverse (by rw [List.head?_reverse]; exact hlast),
    List.reverse_reverse]

/-- C1: a GET request whose target is "/" followed by `name` (which may be
empty) gets a response with status 200 whose body is "Hello, " followed by
`name`. -/
theorem C1_get_greets_name (request : Request) (name : Str)
    (hmethod : request.method = .get) (htarget : request.target = '/' :: name) :
    ∃ response, HandleRequest request = .ok response ∧ response.result = 200 ∧
      response.body = "Hello, ".toList ++ name := by
  have h : HandleRequest request = .ok (string_response Status.ok
      ("Hello, ".toList ++ name) request.version request.keep_alive) := by
    simp [HandleRequest, hmethod, htarget, substr, MakeStringResponse_default]
  exact ⟨_, h, rfl, rfl⟩

/-- C1, at the two targets the specification names: GET "/World" gives
"Hello, World" and GET "/" gives "Hello, ". -/
theorem C1_get_greets_name_witness :
    (∃ response,
      HandleRequest { method := .get, target := "/World".toList, version := 11,
                      fields := [], body := [] } = .ok response ∧
      response.result = 200 ∧ response.body = "Hello, World".toList) ∧
    (∃ response,
      HandleRequest { method := .get, target := "/".toList, version := 11,
                      fields := [], body := [] } = .ok response ∧
      response.result = 200 ∧ response.body = "Hello, ".toList) :=
  ⟨C1_get_greets_name _ "World".toList rfl rfl, C1_get_greets_name _ [] rfl rfl⟩

/-- C2, on the code: a HEAD request with `Content-Length: 5` (and five bytes of
body) gets status 200,
the body "5" and a Content-Length field of "1"; the claim promises an empty
body and a Content-Length field of "5". -/
theorem C2_head_with_content_length_5 :
    ∃ response,
      HandleRequest { method := .head, target := "/".toList, version := 11,
                      fields := [("Content-Length".toList, "5".toList)],
                      body := "12345".toList }
        = .ok response ∧
      response.result = 200 ∧ response.body = "5".toList ∧
      response.fields.find field.content_length = some "1".toList ∧
      response.fields.count field.content_length = 1 :=
  ⟨_, rfl, rfl, rfl, by decide, by decide⟩

/-- C3: a request whose method is neither GET nor HEAD gets a response with
status 405, the body "Invalid method" and an Allow field "GET, HEAD". -/
theorem C3_other_method_not_allowed (request : Request)
    (hget : request.method ≠ .get) (hhead : request.method ≠ .head) :
    ∃ response, HandleRequest request = .ok response ∧ response.result = 405 ∧
      response.body = "Invalid method".toList ∧
      response.fields.find "Allow".toList = some "GET, HEAD".toList ∧
      response.fields.count "Allow".toList = 1 := by
  rcases HandleRequest_cases request with ⟨h, _⟩ | ⟨h, _⟩ | ⟨h, _⟩ | ⟨_, _, h⟩
  · exact absurd h hget
  · exact absurd h hget
  · exact absurd h hhead
  · refine ⟨_, h, rfl, rfl, ?_, ?_⟩
    · rw [invalid_method_response_fields]
      exact find_allow_built_fields _ _ _ _ _
    · rw [invalid_method_response_fields]
      exact count_allow_built_fields _ _ _ _ _

/-- C3 at POST, DELETE and an unknown verb. -/
theorem C3_other_method_not_allowed_witness :
    (∃ response,
      HandleRequest { method := .post, target := "/x".toList, version := 11,
                      fields := [], body := "data".toList } = .ok response ∧
      response.result = 405 ∧ response.body = "Invalid method".toList ∧
      response.fields.find "Allow".toList = some "GET, HEAD".toList ∧
      response.fields.count "Allow".toList = 1) ∧
    (∃ response,
      HandleRequest { method := .delete_, target := "/x".toList, version := 11,
                      fields := [], body := "data".toList } = .ok response ∧
      response.result = 405 ∧ response.body = "Invalid method".toList ∧
      response.fields.find "Allow".toList = some "GET, HEAD".toList ∧
      response.fields.count "Allow".toList = 1) ∧
    (∃ response,
      HandleRequest { method := .unknown, target := "/x".toList, version := 11,
                      fields := [], body := "data".toList } = .ok response ∧
      response.result = 405 ∧ response.body = "Invalid method".toList ∧
      response.fields.find "Allow".toList = some "GET, HEAD".toList ∧
      response.fields.count "Allow".toList = 1) :=
  ⟨C3_other_method_not_allowed _ (by decide) (by decide),
   C3_other_method_not_allowed _ (by decide) (by decide),
   C3_other_method_not_allowed _ (by decide) (by decide)⟩

/-- C4: a response returned by `HandleRequest` has the version of the request,
and its keep-alive flag, read back with `keep_alive()`, is that of the
request. -/
theorem C4_version_and_keep_alive (request : Request) (response : Response)
    (h : HandleRequest request = .ok response) :
    response.version = request.version ∧ response.keep_alive = request.keep_alive :=
  ⟨(HandleRequest_ok_flags request response h).1, (HandleRequest_ok_flags request response h).2.1⟩

/-- C4 at an HTTP/1.0 request with `Connection: keep-alive`. -/
theorem C4_version_and_keep_alive_witness :
    (string_response 200 "Hello, x".toList 10 true).version = 10 ∧
    (string_response 200 "Hello, x".toList 10 true).keep_alive =
      Request.keep_alive { method := .get, target := "/x".toList, version := 10,
                           fields := [("Connection".toList, "keep-alive".toList)],
                           body := [] } :=
  C4_version_and_keep_alive
    { method := .get, target := "/x".toList, version := 10,
      fields := [("Connection".toList, "keep-alive".toList)], body := [] }
    (string_response 200 "Hello, x".toList 10 true) rfl

/-- C5, refuted as stated: on a GET request with an empty target
`HandleRequest` returns no response, `substr(1)` throws `std::out_of_range`. -/
theorem C5_get_empty_target_throws :
    HandleRequest { method := .get, target := [], version := 11, fields := [], body := [] }
        = .error .out_of_range ∧
    ¬ ∃ response,
      HandleRequest { method := .get, target := [], version := 11, fields := [], body := [] }
        = .ok response := by
  refine ⟨rfl, ?_⟩
  rintro ⟨response, h⟩
  cases h

/-- C5, amended: for every request that is not a GET request with an empty
target, `HandleRequest` returns a response and raises no error, and when
`HandleConnection` has read such a request its next transport operation is the
write of that response (which succeeds or fails). -/
theorem C5_total_unless_get_empty_target (request : Request)
    (h : request.method = .get → request.target ≠ []) :
    (∃ response, HandleRequest request = .ok response) ∧
    ∀ (socket : Socket) (fuel i : Nat),
      ReadRequest (socket.read i) = .ok (some request) →
      ∃ response rest, HandleRequest request = .ok response ∧
        ((serve_loop socket HandleRequest (fuel + 1) i).1 =
            .read :: .cout request :: .write response :: rest ∨
          (serve_loop socket HandleRequest (fuel + 1) i).1 =
            .read :: .cout request :: .write_failed response :: rest) := by
  have hok : ∃ response, HandleRequest request = .ok response := by
    rcases HandleRequest_cases request with ⟨h1, h2, _⟩ | ⟨_, _, h3⟩ | ⟨_, h3⟩ | ⟨_, _, h3⟩
    · exact absurd h2 (h h1)
    · exact ⟨_, h3⟩
    · exact ⟨_, h3⟩
    · exact ⟨_, h3⟩
  refine ⟨hok, ?_⟩
  intro socket fuel i hread
  obtain ⟨response, hresp⟩ := hok
  cases hw : socket.write i with
  | some ec =>
    exact ⟨response, [], hresp, Or.inr (by simp [serve_loop, hread, hresp, hw])⟩
  | none =>
    cases hn : response.need_eof with
    | true => exact ⟨response, [], hresp, Or.inl (by simp [serve_loop, hread, hresp, hw, hn])⟩
    | false =>
      exact ⟨response, _, hresp, Or.inl (by simp [serve_loop, hread, hresp, hw, hn]; rfl)⟩

/-- C5 amended, at a POST request with the empty target, read first on a
connection whose writes succeed. -/
theorem C5_total_unless_get_empty_target_witness :
    (∃ response,
      HandleRequest { method := .post, target := [], version := 11, fields := [], body := [] }
        = .ok response) ∧
    ∃ response rest,
      HandleRequest { method := .post, target := [], version := 11, fields := [], body := [] }
        = .ok response ∧
      ((serve_loop
          { read := fun _ => ⟨⟨[], 0, []⟩,
              { method := .post, target := [], version := 11, fields := [], body := [] }⟩,
            write := fun _ => none, shutdown := ⟨[], 0, []⟩ }
          HandleRequest 1 0).1 =
          .read :: .cout { method := .post, target := [], version := 11, fields := [],
                           body := [] } :: .write response :: rest ∨
       (serve_loop
          { read := fun _ => ⟨⟨[], 0, []⟩,
              { method := .post, target := [], version := 11, fields := [], body := [] }⟩,
            write := fun _ => none, shutdown := ⟨[], 0, []⟩ }
          HandleRequest 1 0).1 =
          .read :: .cout { method := .post, target := [], version := 11, fields := [],
                           body := [] } :: .write_failed response :: rest) :=
  ⟨(C5_total_unless_get_empty_target _ (by decide)).1,
   (C5_total_unless_get_empty_target _ (by decide)).2 _ 0 0 rfl⟩

/-- C6: every response returned by `HandleRequest` has a Content-Type field
"text/html" and a Content-Length field that is the decimal length of the body
the response carries; a 405 response has an Allow field "GET, HEAD" as well. -/
theorem C6_response_headers (request : Request) (response : Response)
    (h : HandleRequest request = .ok response) :
    response.fields.find field.content_type = some "text/html".toList ∧
    response.fields.find field.content_length = some (Nat.toDigits 10 response.body.length) ∧
    (response.result = 405 → response.fields.find "Allow".toList = some "GET, HEAD".toList) := by
  rcases HandleRequest_cases request with ⟨_, _, h1⟩ | ⟨_, _, h1⟩ | ⟨_, h1⟩ | ⟨_, _, h1⟩
  · rw [h1] at h; cases h
  · rw [h1] at h; cases h
    exact ⟨(find_first_two _ _ _).1, (find_first_two _ _ _).2, fun h405 => by cases h405⟩
  · rw [h1] at h; cases h
    exact ⟨(find_first_two _ _ _).1, (find_first_two _ _ _).2, fun h405 => by cases h405⟩
  · rw [h1] at h; cases h
    rw [invalid_method_response_fields]
    refine ⟨?_, ?_, fun _ => find_allow_built_fields _ _ _ _ _⟩
    · rw [List.append_assoc]; exact (find_first_two _ _ _).1
    · rw [List.append_assoc]; exact (find_first_two _ _ _).2

/-- C6 at a PUT request: the 405 response has the three fields. -/
theorem C6_response_headers_witness :
    (invalid_method_response
        { method := .put, target := "/".toList, version := 11, fields := [], body := [] }
      ).fields.find field.content_type = some "text/html".toList ∧
    (invalid_method_response
        { method := .put, target := "/".toList, version := 11, fields := [], body := [] }
      ).fields.find field.content_length = some "14".toList ∧
    (invalid_method_response
        { method := .put, target := "/".toList, version := 11, fields := [], body := [] }
      ).fields.find "Allow".toList = some "GET, HEAD".toList :=
  have h := C6_response_headers
    { method := .put, target := "/".toList, version := 11, fields := [], body := [] }
    (invalid_method_response
      { method := .put, target := "/".toList, version := 11, fields := [], body := [] }) rfl
  ⟨h.1, h.2.1, h.2.2 rfl⟩

/-- C7, refuted as stated: for the content type " text/html ", given with a
space on either side, the Content-Type field of the response is "text/html" and
not the given string; for a content type of 65534 characters
`MakeStringResponse` returns no response, `set` throws. -/
theorem C7_content_type_not_verbatim :
    (∃ response,
      MakeStringResponse Status.ok "x".toList 11 true " text/html ".toList = .ok response ∧
      response.fields.find field.content_type = some "text/html".toList ∧
      response.fields.find field.content_type ≠ some " text/html ".toList) ∧
    MakeStringResponse Status.ok "x".toList 11 true (List.replicate 65534 'a') =
      .error .length_error := by
  constructor
  · refine ⟨built_response Status.ok "x".toList 11 true "text/html".toList "1".toList,
      ?_, by decide, by decide⟩
    rw [MakeStringResponse_eq, if_neg (by decide)]
    rfl
  · rw [MakeStringResponse_eq, if_pos (by rw [List.length_replicate]; decide)]

/-- C7, amended: for a content type within the size limit of the field
container (65533 characters) `MakeStringResponse` returns a response with the
given status and version, the given text as body, a Content-Type field equal to
the content type without its leading and trailing spaces and tabs (so equal to
the content type when it neither starts nor ends with one; "text/html" when
none is given), a Content-Length field equal to the decimal length of the body,
and the given keep-alive flag; for a longer content type it throws. -/
theorem C7_MakeStringResponse_spec (status : Status) (body : Str) (http_version : Nat)
    (keep_alive : Bool) (content_type : Str) :
    (content_type.length ≤ max_field_size →
      ∃ response,
        MakeStringResponse status body http_version keep_alive content_type = .ok response ∧
        response.result = status ∧ response.version = http_version ∧
        response.body = body ∧
        response.fields.find field.content_type = some (trim content_type) ∧
        response.fields.find field.content_length = some (Nat.toDigits 10 body.length) ∧
        response.keep_alive = keep_alive) ∧
    (content_type.length > max_field_size →
      MakeStringResponse status body http_version keep_alive content_type =
        .error .length_error) ∧
    ((∀ c, content_type.head? = some c → c ≠ ' ' ∧ c ≠ '\t') →
      (∀ c, content_type.getLast? = some c → c ≠ ' ' ∧ c ≠ '\t') →
      trim content_type = content_type) ∧
    (∃ response,
      MakeStringResponse status body http_version keep_alive = .ok response ∧
      response.fields.find field.content_type = some "text/html".toList) := by
  refine ⟨?_, ?_, trim_of_no_blank content_type, ?_⟩
  · intro hlen
    refine ⟨_, by rw [MakeStringResponse_eq, if_neg (Nat.not_lt.mpr hlen)], rfl, rfl, rfl,
      (find_first_two _ _ _).1, (find_first_two _ _ _).2,
      built_response_keep_alive _ _ _ _ _ _⟩
  · intro hlen
    rw [MakeStringResponse_eq, if_pos hlen]
  · exact ⟨_, MakeStringResponse_default _ _ _ _, (find_first_two _ _ _).1⟩

/-- C7 amended, at the content types "text/plain" and " text/html " and at one
of 65534 characters. -/
theorem C7_MakeStringResponse_spec_witness :
    (∃ response,
      MakeStringResponse 404 "gone".toList 10 true "text/plain".toList = .ok response ∧
      response.result = 404 ∧ response.version = 10 ∧ response.body = "gone".toList ∧
      response.fields.find field.content_type = some (trim "text/plain".toList) ∧
      response.fields.find field.content_length = some (Nat.toDigits 10 "gone".toList.length) ∧
      response.keep_alive = true) ∧
    trim "text/plain".toList = "text/plain".toList ∧
    trim " text/html ".toList = "text/html".toList ∧
    MakeStringResponse 404 "gone".toList 10 true (List.replicate 65534 'a') =
      .error .length_error :=
  ⟨(C7_MakeStringResponse_spec 404 "gone".toList 10 true "text/plain".toList).1 (by decide),
   (C7_MakeStringResponse_spec 404 "gone".toList 10 true "text/plain".toList).2.2.1
     (by decide) (by decide),
   by decide,
   (C7_MakeStringResponse_spec 404 "gone".toList 10 true (List.replicate 65534 'a')).2.1
     (by rw [List.length_replicate]; decide)⟩

/-- C8, refuted as stated: for the content length " 5 ", given with a space on
either side, the Content-Length field of the response is "5" and not the given
string; for a content length of 65534 characters `MakeEmptyResponse` returns no
response, `set` throws. -/
theorem C8_content_length_not_verbatim :
    (∃ response,
      MakeEmptyResponse Status.ok " 5 ".toList 11 true = .ok response ∧
      response.fields.find field.content_length = some "5".toList ∧
      response.fields.find field.content_length ≠ some " 5 ".toList) ∧
    MakeEmptyResponse Status.ok (List.replicate 65534 '1') 11 true = .error .length_error := by
  constructor
  · refine ⟨built_response Status.ok [] 11 true "text/html".toList "5".toList,
      ?_, by decide, by decide⟩
    rw [MakeEmptyResponse_eq, if_neg (by decide), if_neg (by decide)]
    rfl
  · rw [MakeEmptyResponse_eq, if_neg (by decide), if_pos (by rw [List.length_replicate]; decide)]

/-- C8, amended: for a content length and a content type within the size limit
of the field container (65533 characters) `MakeEmptyResponse` returns a
response with an empty body, a Content-Length field equal to the supplied
string without its leading and trailing spaces and tabs (so equal to the
string when it neither starts nor ends with one), a Content-Type field equal
to the content type trimmed in the same way ("text/html" when none is given),
and the given status, version and keep-alive flag; when one of the two strings
is longer it throws. -/
theorem C8_MakeEmptyResponse_spec (status : Status) (content_length : Str) (http_version : Nat)
    (keep_alive : Bool) (content_type : Str) :
    (content_type.length ≤ max_field_size → content_length.length ≤ max_field_size →
      ∃ response,
        MakeEmptyResponse status content_length http_version keep_alive content_type =
          .ok response ∧
        response.body = [] ∧
        response.fields.find field.content_length = some (trim content_length) ∧
        response.fields.find field.content_type = some (trim content_type) ∧
        response.result = status ∧ response.version = http_version ∧
        response.keep_alive = keep_alive) ∧
    (content_type.length > max_field_size ∨ content_length.length > max_field_size →
      MakeEmptyResponse status content_length http_version keep_alive content_type =
        .error .length_error) ∧
    ((∀ c, content_length.head? = some c → c ≠ ' ' ∧ c ≠ '\t') →
      (∀ c, content_length.getLast? = some c → c ≠ ' ' ∧ c ≠ '\t') →
      trim content_length = content_length) ∧
    ((∀ c, content_type.head? = some c → c ≠ ' ' ∧ c ≠ '\t') →
      (∀ c, content_type.getLast? = some c → c ≠ ' ' ∧ c ≠ '\t') →
      trim content_type = content_type) ∧
    (content_length.length ≤ max_field_size →
      ∃ response,
        MakeEmptyResponse status content_length http_version keep_alive = .ok response ∧
        response.fields.find field.content_type = some "text/html".toList) := by
  refine ⟨?_, ?_, trim_of_no_blank content_length, trim_of_no_blank content_type, ?_⟩
  · intro hlen hlen2
    refine ⟨_, by rw [MakeEmptyResponse_eq, if_neg (Nat.not_lt.mpr hlen),
      if_neg (Nat.not_lt.mpr hlen2)], rfl, (find_first_two _ _ _).2,
      (find_first_two _ _ _).1, rfl, rfl, built_response_keep_alive _ _ _ _ _ _⟩
  · intro hlen
    rw [MakeEmptyResponse_eq]
    by_cases h1 : content_type.length > max_field_size
    · rw [if_pos h1]
    · rw [if_neg h1, if_pos (hlen.resolve_left h1)]
  · intro hlen2
    refine ⟨_, by rw [MakeEmptyResponse_eq, if_neg (by decide),
      if_neg (Nat.not_lt.mpr hlen2)], ?_⟩
    exact (find_first_two _ _ _).1

/-- C8 amended, at the content lengths "17" and " 5 " and at one of 65534
characters. -/
theorem C8_MakeEmptyResponse_spec_witness :
    (∃ response,
      MakeEmptyResponse 200 "17".toList 10 true "text/plain".toList = .ok response ∧
      response.body = [] ∧
      response.fields.find field.content_length = some (trim "17".toList) ∧
      response.fields.find field.content_type = some (trim "text/plain".toList) ∧
      response.result = 200 ∧ response.version = 10 ∧ response.keep_alive = true) ∧
    trim "17".toList = "17".toList ∧
    trim " 5 ".toList = "5".toList ∧
    MakeEmptyResponse 200 (List.replicate 65534 '1') 10 true "text/plain".toList =
      .error .length_error :=
  ⟨(C8_MakeEmptyResponse_spec 200 "17".toList 10 true "text/plain".toList).1
     (by decide) (by decide),
   (C8_MakeEmptyResponse_spec 200 "17".toList 10 true "text/plain".toList).2.2.1
     (by decide) (by decide),
   by decide,
   (C8_MakeEmptyResponse_spec 200 (List.replicate 65534 '1') 10 true
     "text/plain".toList).2.1 (Or.inr (by rw [List.length_replicate]; decide))⟩

/-- C9: `ReadRequest` tells the three outcomes of the read apart.  With no
error it returns the parsed request; with the end-of-stream error it returns
the empty value and throws nothing; with any other error it throws an error
whose text is "Failed to read request: " followed by the message of the error
code.  The end-of-stream error is an error, so the three cases are disjoint. -/
theorem C9_ReadRequest_outcomes (read : ReadResult) :
    (read.ec.failed = false → ReadRequest read = .ok (some read.request)) ∧
    (read.ec.is_end_of_stream = true → ReadRequest read = .ok none) ∧
    (read.ec.failed = true → read.ec.is_end_of_stream = false →
      ReadRequest read =
        .error (.runtime_error ("Failed to read request: ".toList ++ read.ec.message))) ∧
    (read.ec.is_end_of_stream = true → read.ec.failed = true) := by
  refine ⟨ReadRequest_of_not_failed read, ?_, ?_, ?_⟩
  · intro h
    simp [ReadRequest, h]
  · intro hf he
    simp [ReadRequest, hf, he]
  · intro h
    simp only [ErrorCode.is_end_of_stream, Bool.and_eq_true, beq_iff_eq] at h
    simp [ErrorCode.failed, h.2]

/-- C9 at a read without error, at the end of the stream, and at a read that
failed with the error `partial_message` of `http::error`. -/
theorem C9_ReadRequest_outcomes_witness :
    ReadRequest ⟨⟨"system".toList, 0, "Success".toList⟩,
        { method := .get, target := "/".toList, version := 11, fields := [], body := [] }⟩
      = .ok (some { method := .get, target := "/".toList, version := 11, fields := [],
                    body := [] }) ∧
    ReadRequest ⟨⟨http_category, 1, "end of stream".toList⟩,
        { method := .unknown, target := [], version := 11, fields := [], body := [] }⟩
      = .ok none ∧
    ReadRequest ⟨⟨http_category, 2, "partial message".toList⟩,
        { method := .unknown, target := [], version := 11, fields := [], body := [] }⟩
      = .error (.runtime_error "Failed to read request: partial message".toList) :=
  ⟨(C9_ReadRequest_outcomes _).1 rfl, (C9_ReadRequest_outcomes _).2.1 rfl,
   (C9_ReadRequest_outcomes _).2.2.1 rfl rfl⟩

/-- C10, refuted as stated, on two requests that carry `Connection: close`: an
HTTP/1.1 request whose second Connection field is `close`, after a first one
that is `upgrade`, and an HTTP/1.0 request with `Connection: close, keep-alive`.
For both the response is keep-alive, and after it is written the loop reads
again: no shutdown follows. -/
theorem C10_reads_again_despite_close :
    (("Connection".toList, "close".toList) ∈ upgrade_then_close.fields ∧
      HandleConnection socket_upgrade_then_close HandleRequest 2 =
        ([.read, .cout upgrade_then_close,
          .write (string_response 200 "Hello, a".toList 11 true),
          .read, .cout upgrade_then_close,
          .write (string_response 200 "Hello, a".toList 11 true)], .running)) ∧
    (token_list_exists "close, keep-alive".toList "close".toList = true ∧
      HandleConnection socket_close_and_keep_alive HandleRequest 2 =
        ([.read, .cout close_and_keep_alive,
          .write (string_response 200 "Hello, a".toList 10 true),
          .read, .cout close_and_keep_alive,
          .write (string_response 200 "Hello, a".toList 10 true)], .running)) :=
  ⟨⟨by decide, rfl⟩, ⟨by decide, rfl⟩⟩

/-- C10, amended: in a run of `HandleConnection` with `HandleRequest`, once the
response has been written to a request whose first Connection field names
`close` (and, in a request older than HTTP/1.1, does not name `keep-alive` as
well), or to an HTTP/1.0 request without `Connection: keep-alive`, the only
effect that follows is the shutdown of the send direction: no further read
happens, and `HandleConnection` returns. -/
theorem C10_close_after_response (socket : Socket) (fuel : Nat) (request : Request)
    (response : Response) (before after : List Event)
    (hclose : connection_close request = true ∨ http10_without_keep_alive request = true)
    (hrun : (HandleConnection socket HandleRequest fuel).1 =
      before ++ .cout request :: .write response :: after) :
    after = [.shutdown] ∧ (HandleConnection socket HandleRequest fuel).2 = .returned := by
  have hka := keep_alive_false_of_close request hclose
  have hlast := serve_loop_write_last socket request response hka fuel 0 before
  unfold HandleConnection at hrun ⊢
  rcases hloop : serve_loop socket HandleRequest fuel 0 with ⟨events, ending⟩
  rw [hloop] at hrun hlast
  cases ending with
  | running =>
    simp only at hrun hlast
    exact absurd (hlast after hrun).2 (by simp)
  | finished =>
    simp only at hrun hlast ⊢
    obtain ⟨rest, hevents, hafter⟩ :=
      split_before_suffix events [.shutdown] before after _ _ (by simp) (by simp) hrun
    have hrest := (hlast rest hevents).1
    subst hrest
    exact ⟨hafter, trivial⟩
  | thrown e =>
    simp only at hrun hlast ⊢
    cases hstd : e.is_std_exception with
    | true =>
      simp only [hstd, if_true] at hrun
      obtain ⟨rest, hevents, _⟩ :=
        split_before_suffix events [.cerr e, .shutdown] before after _ _ (by simp) (by simp) hrun
      exact absurd (hlast rest hevents).2 (by simp)
    | false =>
      simp only [hstd] at hrun
      exact absurd (hlast after hrun).2 (by simp)

/-- C10 on two connections: one whose first request carries `Connection: close`,
and one where an HTTP/1.0 request without a Connection field follows a
keep-alive request. -/
theorem C10_close_after_response_witness :
    (connection_close get_with_close = true ∧
      (HandleConnection socket_close_first HandleRequest 5).1 =
        [.read] ++ .cout get_with_close ::
          .write (string_response 200 "Hello, a".toList 11 false) :: [.shutdown] ∧
      (HandleConnection socket_close_first HandleRequest 5).2 = .returned) ∧
    (http10_without_keep_alive post_http10 = true ∧
      (HandleConnection socket_http10_second HandleRequest 5).1 =
        [.read, .cout get_http11, .write (string_response 200 "Hello, b".toList 11 true),
          .read] ++ .cout post_http10 :: .write (invalid_method_response post_http10) ::
          [.shutdown] ∧
      (HandleConnection socket_http10_second HandleRequest 5).2 = .returned) :=
  ⟨⟨rfl, rfl,
    (C10_close_after_response socket_close_first 5 get_with_close
      (string_response 200 "Hello, a".toList 11 false) [.read] [.shutdown]
      (Or.inl rfl) rfl).2⟩,
   ⟨rfl, rfl,
    (C10_close_after_response socket_http10_second 5 post_http10
      (invalid_method_response post_http10)
      [.read, .cout get_http11, .write (string_response 200 "Hello, b".toList 11 true),
        .read] [.shutdown] (Or.inr rfl) rfl).2⟩⟩

/-- C11: when the loop of `HandleConnection` with `HandleRequest` reaches an
iteration in which an HTTP/1.1 request without `Connection: close` is read, and
the next read yields a second request (both as read off the wire, so not GET
with an empty target), and the two writes succeed, then the first response is
written, the second request is read and its response is written, with nothing
but that read and the dump of the request between the two writes: no shutdown. -/
theorem C11_keep_alive_two_responses (socket : Socket) (i fuel : Nat)
    (first second : Request)
    (hreach : ∀ j, j < i → goes_round socket HandleRequest j = true)
    (hfirst : ReadRequest (socket.read i) = .ok (some first))
    (hsecond : ReadRequest (socket.read (i + 1)) = .ok (some second))
    (hwrite1 : socket.write i = none) (hwrite2 : socket.write (i + 1) = none)
    (h11 : http11_without_close first = true)
    (htarget1 : first.method = .get → first.target ≠ [])
    (htarget2 : second.method = .get → second.target ≠ []) :
    ∃ (response1 response2 : Response) (pairs : List (Request × Response))
      (rest : List Event),
      HandleRequest first = .ok response1 ∧ HandleRequest second = .ok response2 ∧
      pairs.length = i ∧
      (HandleConnection socket HandleRequest (i + 2 + fuel)).1 =
        rounds_of pairs ++
          [.read, .cout first, .write response1, .read, .cout second, .write response2] ++
          rest := by
  obtain ⟨r1, hr1⟩ := HandleRequest_ok_of_target first htarget1
  obtain ⟨r2, hr2⟩ := HandleRequest_ok_of_target second htarget2
  have hn1 : r1.need_eof = false := by
    rw [(HandleRequest_ok_flags first r1 hr1).2.2, keep_alive_of_http11_without_close first h11]
    rfl
  obtain ⟨pairs, hlen, _, hrun⟩ := serve_loop_reach socket HandleRequest i 0
    (fun j hj => by simpa using hreach j hj)
  obtain ⟨rest, hrest⟩ := serve_loop_succ_written socket HandleRequest fuel (i + 1) second r2
    hsecond hr2 hwrite2
  obtain ⟨suffix, hsuffix, _⟩ := HandleConnection_events socket HandleRequest (i + 2 + fuel)
  refine ⟨r1, r2, pairs, rest ++ suffix, hr1, hr2, hlen, ?_⟩
  have e1 : i + 2 + fuel = i + (fuel + 1 + 1) := by omega
  rw [hsuffix, e1, hrun (fuel + 1 + 1), Nat.zero_add,
    serve_loop_succ_round socket HandleRequest (fuel + 1) i first r1 hfirst hr1 hwrite1 hn1,
    hrest]
  simp

/-- C11 on two connections: the two requests are the first two of the
connection, and they are the second and the third. -/
theorem C11_keep_alive_two_responses_witness :
    (∃ (response1 response2 : Response) (pairs : List (Request × Response))
      (rest : List Event),
      HandleRequest get_http11 = .ok response1 ∧ HandleRequest post_http10 = .ok response2 ∧
      pairs.length = 0 ∧
      (HandleConnection socket_http10_second HandleRequest (0 + 2 + 1)).1 =
        rounds_of pairs ++
          [.read, .cout get_http11, .write response1, .read, .cout post_http10,
            .write response2] ++ rest) ∧
    (∃ (response1 response2 : Response) (pairs : List (Request × Response))
      (rest : List Event),
      HandleRequest get_http11 = .ok response1 ∧
      HandleRequest get_with_close = .ok response2 ∧
      pairs.length = 1 ∧
      (HandleConnection socket_three_requests HandleRequest (1 + 2 + 0)).1 =
        rounds_of pairs ++
          [.read, .cout get_http11, .write response1, .read, .cout get_with_close,
            .write response2] ++ rest) :=
  ⟨C11_keep_alive_two_responses socket_http10_second 0 1 get_http11 post_http10
      (by decide) rfl rfl rfl rfl (by decide) (by decide) (by decide),
   C11_keep_alive_two_responses socket_three_requests 1 0 get_http11 get_with_close
      (by decide) rfl rfl rfl rfl (by decide) (by decide) (by decide)⟩

/-- C13: for every request handler and every response whose write succeeded in a
run of `HandleConnection`: when `need_eof()` of the response is true, the only
effect that follows is the shutdown and `HandleConnection` returns; when it is
false, the next effect is another read (it is the next effect of the run as
soon as the loop runs one iteration further). -/
theorem C13_read_again_iff_not_need_eof (socket : Socket)
    (handle_request : Request → Except Exn Response) (fuel : Nat) (response : Response)
    (before after : List Event)
    (hrun : (HandleConnection socket handle_request fuel).1 =
      before ++ .write response :: after) :
    (response.need_eof = true →
      after = [.shutdown] ∧ (HandleConnection socket handle_request fuel).2 = .returned) ∧
    (response.need_eof = false →
      (after = [] ∨ ∃ rest, after = .read :: rest) ∧
      ∃ rest, (HandleConnection socket handle_request (fuel + 1)).1 =
        before ++ .write response :: .read :: rest) := by
  have hloop := serve_loop_after_write socket handle_request response fuel 0 before
  have hnext : response.need_eof = false →
      (∃ rest, (serve_loop socket handle_request fuel 0).1 =
        before ++ .write response :: rest) →
      ∃ rest, (HandleConnection socket handle_request (fuel + 1)).1 =
        before ++ .write response :: .read :: rest := by
    intro hfalse ⟨rest, hrest⟩
    obtain ⟨more, hmore⟩ := ((hloop rest hrest).2 hfalse).2
    obtain ⟨suffix, hsuffix, _⟩ := HandleConnection_events socket handle_request (fuel + 1)
    exact ⟨more ++ suffix, by rw [hsuffix, hmore]; simp⟩
  unfold HandleConnection at hrun ⊢
  rcases hev : serve_loop socket handle_request fuel 0 with ⟨events, ending⟩
  rw [hev] at hrun hloop hnext
  cases ending with
  | running =>
    simp only at hrun hloop hnext ⊢
    have h := hloop after hrun
    refine ⟨fun htrue => absurd (h.1 htrue).2 (by simp), fun hfalse => ⟨?_, ?_⟩⟩
    · rcases (h.2 hfalse).1 with ⟨h1, _⟩ | h1
      · exact Or.inl h1
      · exact Or.inr h1
    · exact hnext hfalse ⟨after, hrun⟩
  | finished =>
    simp only at hrun hloop hnext ⊢
    obtain ⟨rest, hevents, hafter⟩ :=
      split_before_suffix_one events [.shutdown] before after _ (by simp) hrun
    have h := hloop rest hevents
    refine ⟨fun htrue => ⟨?_, trivial⟩, fun hfalse => ⟨?_, ?_⟩⟩
    · rw [hafter, (h.1 htrue).1]; rfl
    · rcases (h.2 hfalse).1 with ⟨_, h2⟩ | ⟨more, hmore⟩
      · cases h2
      · exact Or.inr ⟨more ++ [.shutdown], by rw [hafter, hmore]; rfl⟩
    · exact hnext hfalse ⟨rest, hevents⟩
  | thrown e =>
    simp only at hrun hloop hnext ⊢
    cases hstd : e.is_std_exception with
    | true =>
      simp only [hstd, if_true] at hrun ⊢
      obtain ⟨rest, hevents, hafter⟩ :=
        split_before_suffix_one events [.cerr e, .shutdown] before after _ (by simp) hrun
      have h := hloop rest hevents
      refine ⟨fun htrue => absurd (h.1 htrue).2 (by simp), fun hfalse => ⟨?_, ?_⟩⟩
      · rcases (h.2 hfalse).1 with ⟨_, h2⟩ | ⟨more, hmore⟩
        · cases h2
        · exact Or.inr ⟨more ++ [.cerr e, .shutdown], by rw [hafter, hmore]; rfl⟩
      · exact hnext hfalse ⟨rest, hevents⟩
    | false =>
      simp only [hstd] at hrun ⊢
      have h := hloop after hrun
      refine ⟨fun htrue => absurd (h.1 htrue).2 (by simp), fun hfalse => ⟨?_, ?_⟩⟩
      · rcases (h.2 hfalse).1 with ⟨_, h2⟩ | h1
        · cases h2
        · exact Or.inr h1
      · exact hnext hfalse ⟨after, hrun⟩

/-- C13 on a connection that serves a keep-alive request and then an HTTP/1.0
request: after the first response (`need_eof()` false) the loop reads again,
after the second (`need_eof()` true) only the shutdown follows. -/
theorem C13_read_again_iff_not_need_eof_witness :
    ((string_response 200 "Hello, b".toList 11 true).need_eof = false ∧
      (([.read, .cout post_http10, .write (invalid_method_response post_http10),
          .shutdown] = ([] : List Event) ∨
        ∃ rest, [.read, .cout post_http10, .write (invalid_method_response post_http10),
          .shutdown] = Event.read :: rest) ∧
       ∃ rest, (HandleConnection socket_http10_second HandleRequest (5 + 1)).1 =
        [.read, .cout get_http11] ++
          .write (string_response 200 "Hello, b".toList 11 true) :: .read :: rest)) ∧
    ((invalid_method_response post_http10).need_eof = true ∧
      [Event.shutdown] = [.shutdown] ∧
      (HandleConnection socket_http10_second HandleRequest 5).2 = .returned) :=
  ⟨⟨by decide,
    (C13_read_again_iff_not_need_eof socket_http10_second HandleRequest 5
      (string_response 200 "Hello, b".toList 11 true) [.read, .cout get_http11]
      [.read, .cout post_http10, .write (invalid_method_response post_http10), .shutdown]
      rfl).2 (by decide)⟩,
   ⟨by decide,
    (C13_read_again_iff_not_need_eof socket_http10_second HandleRequest 5
      (invalid_method_response post_http10)
      [.read, .cout get_http11, .write (string_response 200 "Hello, b".toList 11 true),
        .read, .cout post_http10]
      [.shutdown] rfl).1 (by decide)⟩⟩

/-- C14: when the loop of `HandleConnection` reaches a read that reports the end
of the stream (the first read, or after any number of served requests), the
effects of the call are those of the served requests, that read and the
shutdown, and the call returns: nothing goes to `std::cerr`, no read or write
follows.  And in every run, a text on `std::cerr` is the report of the failure
with which the run ends after its served requests: the error that `ReadRequest`
threw on a read error that is not the end of the stream, the error that the
handler threw, or the error of a failed write. -/
theorem C14_end_of_stream_is_silent (socket : Socket)
    (handle_request : Request → Except Exn Response) :
    (∀ (i fuel : Nat), (∀ j, j < i → goes_round socket handle_request j = true) →
      (socket.read i).ec.is_end_of_stream = true →
      ∃ pairs : List (Request × Response), pairs.length = i ∧
        HandleConnection socket handle_request (i + 1 + fuel) =
          (rounds_of pairs ++ [.read, .shutdown], .returned) ∧
        ∀ e, Event.cerr e ∉ rounds_of pairs ++ [.read, .shutdown]) ∧
    (∀ (fuel : Nat) (e : Exn),
      Event.cerr e ∈ (HandleConnection socket handle_request fuel).1 →
      ∃ pairs : List (Request × Response),
        (∀ (j : Nat) (request : Request) (response : Response),
          pairs[j]? = some (request, response) →
            ReadRequest (socket.read j) = .ok (some request) ∧
            handle_request request = .ok response ∧ socket.write j = none) ∧
        ((ReadRequest (socket.read pairs.length) = .error e ∧
            (socket.read pairs.length).ec.is_end_of_stream = false ∧
            (HandleConnection socket handle_request fuel).1 =
              rounds_of pairs ++ [.read, .cerr e, .shutdown]) ∨
          (∃ request, ReadRequest (socket.read pairs.length) = .ok (some request) ∧
            handle_request request = .error e ∧
            (HandleConnection socket handle_request fuel).1 =
              rounds_of pairs ++ [.read, .cout request, .cerr e, .shutdown]) ∨
          (∃ request response ec,
            ReadRequest (socket.read pairs.length) = .ok (some request) ∧
            handle_request request = .ok response ∧
            socket.write pairs.length = some ec ∧ e = .system_error ec ∧
            (HandleConnection socket handle_request fuel).1 =
              rounds_of pairs ++
                [.read, .cout request, .write_failed response, .cerr e, .shutdown]))) := by
  have hround : ∀ (pairs : List (Request × Response)) (e : Exn),
      Event.cerr e ∉ rounds_of pairs := by
    intro pairs e hmem
    rcases mem_rounds_of pairs _ hmem with h | ⟨_, h⟩ | ⟨_, h⟩ <;> cases h
  constructor
  · intro i fuel hreach heos
    obtain ⟨pairs, hlen, _, hrun⟩ := serve_loop_reach socket handle_request i 0
      (fun j hj => by simpa using hreach j hj)
    have hread : ReadRequest (socket.read i) = .ok none := by
      simp [ReadRequest, heos]
    have hlast : serve_loop socket handle_request (fuel + 1) i = ([.read], .finished) := by
      rw [serve_loop]; simp [hread]
    refine ⟨pairs, hlen, ?_, ?_⟩
    · have e1 : i + 1 + fuel = i + (fuel + 1) := by omega
      unfold HandleConnection
      rw [e1, hrun (fuel + 1), Nat.zero_add, hlast]
      simp
    · intro e hmem
      rcases List.mem_append.mp hmem with h | h
      · exact hround pairs e h
      · simp at h
  · intro fuel e hmem
    obtain ⟨pairs, tail, hev, _, hidx, hshape⟩ :=
      HandleConnection_shape socket handle_request fuel
    refine ⟨pairs, hidx, ?_⟩
    rw [hev] at hmem ⊢
    rcases List.mem_append.mp hmem with h | h
    · exact absurd h (hround pairs e)
    · rcases hshape with ⟨h1, _⟩ | ⟨h1, _⟩ | ⟨h1, _⟩ | ⟨e', h1, _, h3⟩ |
        ⟨rq, e', h1, _, h3, h4, _⟩ | ⟨rq, e', h1, _⟩ | ⟨rq, rs, ec, h1, _, h3, h4, h5⟩
      · subst h1; simp at h
      · subst h1; simp at h
      · subst h1; simp at h
      · subst h1
        simp only [List.mem_cons, Event.cerr.injEq, List.mem_singleton, List.mem_nil_iff,
          or_false, false_or, reduceCtorEq] at h
        subst h
        exact Or.inl ⟨h3, (ReadRequest_error _ _ h3).2.1, rfl⟩
      · subst h1
        simp only [List.mem_cons, Event.cerr.injEq, List.mem_singleton, List.mem_nil_iff,
          or_false, false_or, reduceCtorEq] at h
        subst h
        exact Or.inr (Or.inl ⟨rq, h3, h4, rfl⟩)
      · subst h1; simp at h
      · subst h1
        simp only [List.mem_cons, Event.cerr.injEq, List.mem_singleton, List.mem_nil_iff,
          or_false, false_or, reduceCtorEq] at h
        subst h
        exact Or.inr (Or.inr ⟨rq, rs, ec, h3, h4, h5, rfl, rfl⟩)

/-- C14 on two connections.  One serves a request and then sees the end of the
stream: the effects are the served request, the last read and the shutdown.
On the other the first read fails: the text on `std::cerr` is the error that
`ReadRequest` threw for it. -/
theorem C14_end_of_stream_is_silent_witness :
    (HandleConnection socket_eos_after_one HandleRequest 2 =
      ([.read, .cout get_http11, .write (string_response 200 "Hello, b".toList 11 true),
        .read, .shutdown], .returned) ∧
     ∃ pairs : List (Request × Response), pairs.length = 1 ∧
      HandleConnection socket_eos_after_one HandleRequest (1 + 1 + 0) =
        (rounds_of pairs ++ [.read, .shutdown], .returned) ∧
      ∀ e, Event.cerr e ∉ rounds_of pairs ++ [.read, .shutdown]) ∧
    (Event.cerr (.runtime_error "Failed to read request: partial message".toList) ∈
      (HandleConnection socket_read_error HandleRequest 3).1 ∧
     ∃ pairs : List (Request × Response),
      (∀ (j : Nat) (request : Request) (response : Response),
        pairs[j]? = some (request, response) →
          ReadRequest (socket_read_error.read j) = .ok (some request) ∧
          HandleRequest request = .ok response ∧ socket_read_error.write j = none) ∧
      ((ReadRequest (socket_read_error.read pairs.length) =
            .error (.runtime_error "Failed to read request: partial message".toList) ∧
          (socket_read_error.read pairs.length).ec.is_end_of_stream = false ∧
          (HandleConnection socket_read_error HandleRequest 3).1 =
            rounds_of pairs ++
              [.read, .cerr (.runtime_error "Failed to read request: partial message".toList),
                .shutdown]) ∨
        (∃ request,
          ReadRequest (socket_read_error.read pairs.length) = .ok (some request) ∧
          HandleRequest request =
            .error (.runtime_error "Failed to read request: partial message".toList) ∧
          (HandleConnection socket_read_error HandleRequest 3).1 =
            rounds_of pairs ++
              [.read, .cout request,
                .cerr (.runtime_error "Failed to read request: partial message".toList),
                .shutdown]) ∨
        (∃ request response ec,
          ReadRequest (socket_read_error.read pairs.length) = .ok (some request) ∧
          HandleRequest request = .ok response ∧
          socket_read_error.write pairs.length = some ec ∧
          Exn.runtime_error "Failed to read request: partial message".toList =
            .system_error ec ∧
          (HandleConnection socket_read_error HandleRequest 3).1 =
            rounds_of pairs ++
              [.read, .cout request, .write_failed response,
                .cerr (.runtime_error "Failed to read request: partial message".toList),
                .shutdown]))) :=
  ⟨⟨rfl, (C14_end_of_stream_is_silent socket_eos_after_one HandleRequest).1 1 0
      (by decide) rfl⟩,
   ⟨by decide, (C14_end_of_stream_is_silent socket_read_error HandleRequest).2 3
      (.runtime_error "Failed to read request: partial message".toList) (by decide)⟩⟩

/-- C15: in every run of `HandleConnection` the reads and writes alternate,
starting with a read.  The effects are rounds of a read, the dump of the request
it returned and the write of the handler's response to that request, the `j`-th
round for the `j`-th read of the connection, followed by effects without a
sent response.  The number of responses sent is at most the number of requests
read, which is at most the number of reads, which is at most the number of
responses sent plus one. -/
theorem C15_reads_and_writes_alternate (socket : Socket)
    (handle_request : Request → Except Exn Response) (fuel : Nat) :
    read_write_ops (HandleConnection socket handle_request fuel).1 =
      alternating (read_write_ops (HandleConnection socket handle_request fuel).1).length ∧
    (∃ (pairs : List (Request × Response)) (tail : List Event),
      (HandleConnection socket handle_request fuel).1 = rounds_of pairs ++ tail ∧
      (∀ response, Event.write response ∉ tail) ∧
      ∀ (j : Nat) (request : Request) (response : Response),
        pairs[j]? = some (request, response) →
          ReadRequest (socket.read j) = .ok (some request) ∧
          handle_request request = .ok response) ∧
    List.countP Event.is_written (HandleConnection socket handle_request fuel).1 ≤
      List.countP Event.is_request (HandleConnection socket handle_request fuel).1 ∧
    List.countP Event.is_request (HandleConnection socket handle_request fuel).1 ≤
      List.countP Event.is_read (HandleConnection socket handle_request fuel).1 ∧
    List.countP Event.is_read (HandleConnection socket handle_request fuel).1 ≤
      List.countP Event.is_written (HandleConnection socket handle_request fuel).1 + 1 := by
  obtain ⟨pairs, tail, hev, _, hidx, hshape⟩ :=
    HandleConnection_shape socket handle_request fuel
  have hfacts : ∃ m, read_write_ops tail = alternating m ∧
      (∀ response, Event.write response ∉ tail) ∧
      List.countP Event.is_written tail = 0 ∧
      List.countP Event.is_request tail ≤ List.countP Event.is_read tail ∧
      List.countP Event.is_read tail ≤ 1 := by
    rcases hshape with ⟨h1, _⟩ | ⟨h1, _⟩ | ⟨h1, _⟩ | ⟨e', h1, _⟩ |
      ⟨rq, e', h1, _⟩ | ⟨rq, e', h1, _⟩ | ⟨rq, rs, ec, h1, _⟩
    · subst h1; exact ⟨0, by simp [read_write_ops, alternating]⟩
    · subst h1; exact ⟨0, by simp [read_write_ops, alternating, List.countP_cons,
        Event.is_written, Event.is_request, Event.is_read]⟩
    · subst h1; exact ⟨1, by simp [read_write_ops, alternating, List.countP_cons,
        Event.is_written, Event.is_request, Event.is_read]⟩
    · subst h1; exact ⟨1, by simp [read_write_ops, alternating, List.countP_cons,
        Event.is_written, Event.is_request, Event.is_read]⟩
    · subst h1; exact ⟨1, by simp [read_write_ops, alternating, List.countP_cons,
        Event.is_written, Event.is_request, Event.is_read]⟩
    · subst h1; exact ⟨1, by simp [read_write_ops, alternating, List.countP_cons,
        Event.is_written, Event.is_request, Event.is_read]⟩
    · subst h1; exact ⟨2, by simp [read_write_ops, alternating, List.countP_cons,
        Event.is_written, Event.is_request, Event.is_read]⟩
  obtain ⟨m, hops, hnowrite, hw, hrq, hrd⟩ := hfacts
  obtain ⟨c1, c2, c3⟩ := countP_rounds tail pairs
  rw [hev]
  refine ⟨?_, ⟨pairs, tail, rfl, hnowrite, fun j rq rs hj => ⟨(hidx j rq rs hj).1,
    (hidx j rq rs hj).2.1⟩⟩, ?_, ?_, ?_⟩
  · rw [read_write_ops_rounds tail m hops pairs, alternating_length]
  · rw [c2, c3]; omega
  · rw [c1, c2]; omega
  · rw [c1, c3]; omega

/-- C16: on a GET request with a non-empty target `HandleRequest` drops the first
character of the target, whatever it is: the body is "Hello, " followed by the
rest of the target, and the Content-Length field is the decimal of the length of
the target plus 6. -/
theorem C16_get_drops_first_char (request : Request) (c : Char) (rest : Str)
    (hmethod : request.method = .get) (htarget : request.target = c :: rest) :
    ∃ response, HandleRequest request = .ok response ∧
      response.body = "Hello, ".toList ++ rest ∧
      response.fields.find field.content_length =
        some (Nat.toDigits 10 (request.target.length + 6)) := by
  have h : HandleRequest request = .ok (string_response Status.ok
      ("Hello, ".toList ++ rest) request.version request.keep_alive) := by
    simp [HandleRequest, hmethod, htarget, substr, MakeStringResponse_default]
  refine ⟨_, h, rfl, ?_⟩
  have hlen : ("Hello, ".toList ++ rest).length = (c :: rest).length + 6 := by
    have h7 : "Hello, ".toList.length = 7 := rfl
    rw [List.length_append, h7, List.length_cons]
    omega
  have hfind : (string_response Status.ok ("Hello, ".toList ++ rest) request.version
      request.keep_alive).fields.find field.content_length =
      some (Nat.toDigits 10 ("Hello, ".toList ++ rest).length) := (find_first_two _ _ _).2
  rw [hfind, htarget, hlen]

/-- C16 at the target "World", which does not start with "/": the body is
"Hello, orld" and the Content-Length field is "11". -/
theorem C16_get_drops_first_char_witness :
    ∃ response,
      HandleRequest { method := .get, target := "World".toList, version := 11,
                      fields := [], body := [] } = .ok response ∧
      response.body = "Hello, orld".toList ∧
      response.fields.find field.content_length = some "11".toList :=
  C16_get_drops_first_char
    { method := .get, target := "World".toList, version := 11, fields := [], body := [] }
    'W' "orld".toList rfl rfl

/-- C17: on a HEAD request the body of the response is the value of the
Content-Length field of the request (the empty string when the request has
none), and the Content-Length field of the response is the decimal length of
that body; without a Content-Length field in the request the body is empty and
the Content-Length field of the response is "0". -/
theorem C17_head_body_is_request_content_length (request : Request)
    (hmethod : request.method = .head) :
    ∃ response, HandleRequest request = .ok response ∧
      response.body = (request.fields.find field.content_length).getD [] ∧
      response.fields.find field.content_length =
        some (Nat.toDigits 10 response.body.length) ∧
      (request.fields.find field.content_length = none →
        response.body = [] ∧
        response.fields.find field.content_length = some "0".toList) := by
  have h : HandleRequest request = .ok (string_response Status.ok
      (request.fields.at "Content-Length".toList) request.version request.keep_alive) := by
    simp [HandleRequest, hmethod, MakeStringResponse_default]
  have hbody : (string_response Status.ok (request.fields.at "Content-Length".toList)
      request.version request.keep_alive).body =
        (request.fields.find field.content_length).getD [] := rfl
  have hlen : (string_response Status.ok (request.fields.at "Content-Length".toList)
      request.version request.keep_alive).fields.find field.content_length =
        some (Nat.toDigits 10 (string_response Status.ok
          (request.fields.at "Content-Length".toList) request.version
          request.keep_alive).body.length) := by
    exact (find_first_two _ _ _).2
  refine ⟨_, h, hbody, hlen, ?_⟩
  intro hnone
  have hempty : (string_response Status.ok (request.fields.at "Content-Length".toList)
      request.version request.keep_alive).body = [] := by
    rw [hbody, hnone]; rfl
  refine ⟨hempty, ?_⟩
  rw [hlen, hempty]
  rfl

/-- C17 at a HEAD request with `Content-Length: 42` and at one without a
Content-Length field. -/
theorem C17_head_body_is_request_content_length_witness :
    (∃ response,
      HandleRequest { method := .head, target := "/".toList, version := 11,
                      fields := [("content-length".toList, "42".toList)], body := [] }
        = .ok response ∧
      response.body = "42".toList ∧
      response.fields.find field.content_length = some "2".toList) ∧
    (∃ response,
      HandleRequest { method := .head, target := "/".toList, version := 11,
                      fields := [("Host".toList, "example".toList)], body := [] }
        = .ok response ∧
      response.body = [] ∧
      response.fields.find field.content_length = some "0".toList) := by
  obtain ⟨r1, h1, hb1, hl1, _⟩ := C17_head_body_is_request_content_length
    { method := .head, target := "/".toList, version := 11,
      fields := [("content-length".toList, "42".toList)], body := [] } rfl
  obtain ⟨r2, h2, _, _, hn2⟩ := C17_head_body_is_request_content_length
    { method := .head, target := "/".toList, version := 11,
      fields := [("Host".toList, "example".toList)], body := [] } rfl
  have hb1' : r1.body = "42".toList := hb1
  refine ⟨⟨r1, h1, hb1', ?_⟩, ⟨r2, h2, hn2 (by decide)⟩⟩
  rw [hl1, hb1']
  rfl

end SyncServer
